import Mathlib

/-!
# Verification of the Keithley 2612 controller and its simulated transport

Shallow embedding of `src/keithley2612/controller.py` and
`src/keithley2612/transport.py`.  Python floats are modelled as rationals
(`ℚ`); the decimal rendering/parsing of numbers on the wire (Python's
`f"{x}"` / `float(...)`, which round-trip exactly for `repr` output) is
modelled by an exact rendering `qRender` together with its parser
`pyFloat?`, with the round-trip property proved below.  Python strings are
modelled as `String` / `List Char`, and each `str` method used by the
source (`strip`, `split`, `startswith`, `endswith`, `in`, `lower`) gets an
explicit model function.
-/

set_option maxRecDepth 16000

namespace Keithley

/-! ## Characters and the numeric wire format -/

/-- Whitespace characters removed by Python's `str.strip`. -/
def isSpaceChar (c : Char) : Bool :=
  c = ' ' || c = '\t' || c = '\n' || c = '\r' || c = '\x0b' || c = '\x0c'

/-- The decimal digit character for `d` (`d < 10`). -/
def digitChar (d : Nat) : Char :=
  if d = 0 then '0' else if d = 1 then '1' else if d = 2 then '2'
  else if d = 3 then '3' else if d = 4 then '4' else if d = 5 then '5'
  else if d = 6 then '6' else if d = 7 then '7' else if d = 8 then '8'
  else '9'

/-- Inverse of `digitChar`. -/
def charToDigit? (c : Char) : Option Nat :=
  if c = '0' then some 0 else if c = '1' then some 1 else if c = '2' then some 2
  else if c = '3' then some 3 else if c = '4' then some 4 else if c = '5' then some 5
  else if c = '6' then some 6 else if c = '7' then some 7 else if c = '8' then some 8
  else if c = '9' then some 9 else none

def isDigitChar (c : Char) : Bool :=
  (charToDigit? c).isSome

/-- Big-endian decimal digits, with structural fuel (any `fuel > n` gives
the true digit list). -/
def digitsCharsAux : Nat → Nat → List Char
  | 0, _ => []
  | Nat.succ fuel, n =>
    if n < 10 then [digitChar n]
    else digitsCharsAux fuel (n / 10) ++ [digitChar (n % 10)]

/-- Big-endian decimal digits of a natural number. -/
def digitsChars (n : Nat) : List Char := digitsCharsAux (n + 1) n

def parseNatAux : List Char → Nat → Option Nat
  | [], acc => some acc
  | c :: cs, acc =>
    match charToDigit? c with
    | some d => parseNatAux cs (10 * acc + d)
    | none => none

/-- Model of Python `int(s)` for non-negative inputs (digits only). -/
def parseNat? (cs : List Char) : Option Nat :=
  if cs.isEmpty then none else parseNatAux cs 0

/-- Wire rendering of an integer. -/
def intRender (i : Int) : List Char :=
  if i < 0 then '-' :: digitsChars i.natAbs else digitsChars i.natAbs

/-- Model of Python `int(s)`. -/
def parseInt? (cs : List Char) : Option Int :=
  if cs.head? = some '-' then (parseNat? cs.tail).map (fun n : Nat => -(n : Int))
  else (parseNat? cs).map (fun n : Nat => (n : Int))

/-- Exact wire rendering of a rational, modelling Python's float `repr`
(which round-trips exactly through `float`). -/
def qRenderChars (q : ℚ) : List Char :=
  intRender q.num ++ '/' :: digitsChars q.den

def qRender (q : ℚ) : String :=
  String.mk (qRenderChars q)

/-- Split at the first occurrence of `c`, if any. -/
def splitFirst (c : Char) : List Char → Option (List Char × List Char)
  | [] => none
  | a :: as =>
    if a = c then some ([], as)
    else (splitFirst c as).map (fun p => (a :: p.1, p.2))

/-- Model of Python `float(s)` on the wire number format: the exact
inverse of `qRenderChars`, accepting plain integers as well. -/
def pyFloat? (cs : List Char) : Option ℚ :=
  match splitFirst '/' cs with
  | some (a, b) =>
    match parseInt? a, parseNat? b with
    | some na, some nb => some ((na : ℚ) / (nb : ℚ))
    | _, _ => none
  | none => (parseInt? cs).map (fun n : Int => (n : ℚ))

deriving instance DecidableEq for Except

/-- Floor of a rational (Python's `//` on floats), in directly computable
form. -/
def ratFloor (q : ℚ) : Int := q.num / (q.den : Int)

/-! ## Python string-method models -/

/-- Python `str.strip`. -/
def pyStrip (l : List Char) : List Char :=
  ((l.dropWhile isSpaceChar).reverse.dropWhile isSpaceChar).reverse

/-- Python `str.startswith`. -/
def pyStarts (l p : List Char) : Bool := p.isPrefixOf l

/-- Python `str.endswith`. -/
def pyEnds (l p : List Char) : Bool := p.isSuffixOf l

/-- Python `sub in s` (substring containment). -/
def pyContainsSub (l p : List Char) : Bool := decide (p <:+: l)

/-- Python `str.split(sep)` for a one-character separator, no maxsplit. -/
def pySplitAll (c : Char) : List Char → List (List Char)
  | [] => [[]]
  | a :: as =>
    let r := pySplitAll c as
    if a = c then [] :: r
    else
      match r with
      | [] => [[a]]
      | h :: t => (a :: h) :: t

/-- Python `str.split(sep, maxsplit=3)` for a one-character separator. -/
def pySplit3 (c : Char) (l : List Char) : List (List Char) :=
  match splitFirst c l with
  | none => [l]
  | some (a, r1) =>
    match splitFirst c r1 with
    | none => [a, r1]
    | some (b, r2) =>
      match splitFirst c r2 with
      | none => [a, b, r2]
      | some (d, r3) => [a, b, d, r3]

/-- Python `str.lower`. -/
def pyLower (l : List Char) : List Char := l.map Char.toLower

/-- Python `str.upper`. -/
def pyUpper (l : List Char) : List Char := l.map Char.toUpper

/-- Python `parts[0]` on a (never-empty) split result. -/
def idx0 (ls : List (List Char)) : List Char := ls.headD []

/-- Python `parts[-1]` on a (never-empty) split result. -/
def idxLast (ls : List (List Char)) : List Char := ls.getLastD []

/-! ## The simulated transport (`transport.py`) -/

/-- Python exception kinds raised by the embedded code. -/
inductive Err
  | runtime (msg : List Char)
  | notImplemented (msg : List Char)
  | valueError (msg : List Char)
  | keyError (msg : List Char)
  | indexError
deriving DecidableEq

/-- `transport._ChannelState`. -/
structure ChannelState where
  func : List Char
  autorange : Bool
  level_v : ℚ
  limit_i : ℚ
  output_on : Bool
  compliance : Bool
  display_measure : List Char
  measure_func : List Char
  measure_autorange : Bool
deriving DecidableEq

/-- `_ChannelState()` defaults. -/
def ChannelState.default : ChannelState :=
  { func := "OUTPUT_DCVOLTS".data
    autorange := true
    level_v := 0
    limit_i := mkRat 1 1000
    output_on := false
    compliance := false
    display_measure := "MEASURE_DCAMPS".data
    measure_func := "MEASURE_DCAMPS".data
    measure_autorange := true }

/-- A pending error-queue entry (the 4-tuples held in `_error_queue`). -/
structure ErrorTuple where
  code : Int
  message : List Char
  severity : Int
  node : Int
deriving DecidableEq

/-- `transport.SimulatedTransport`'s mutable state. -/
structure SimState where
  identity : List Char
  is_open : Bool
  channels : List (List Char × ChannelState)
  beeper_enabled : Bool
  display_screen : List Char
  last_beep : Option (List Char)
  error_queue : List ErrorTuple
deriving DecidableEq

/-- Dictionary lookup `d.get(k)` / `d[k]` on the `_channels` dict (insertion
ordered, unique keys). -/
def dictGet : List (List Char × ChannelState) → List Char → Option ChannelState
  | [], _ => none
  | p :: ps, k => if p.1 == k then some p.2 else dictGet ps k

/-- Dictionary assignment `d[k] = v` on the `_channels` dict: update the
existing entry in place, else append. -/
def dictSet : List (List Char × ChannelState) → List Char → ChannelState →
    List (List Char × ChannelState)
  | [], k, v => [(k, v)]
  | p :: ps, k, v => if p.1 == k then (k, v) :: ps else p :: dictSet ps k v

/-- A freshly constructed `SimulatedTransport()`. -/
def SimState.init : SimState :=
  { identity := "Keithley Instruments Inc., Model 2612, 1234567, FW-1.0".data
    is_open := false
    channels := [("smua".data, ChannelState.default), ("smub".data, ChannelState.default)]
    beeper_enabled := false
    display_screen := "HOME".data
    last_beep := none
    error_queue := [] }

/-- `SimulatedTransport._process_command` (the argument is already stripped). -/
def processCmd (command : List Char) (st : SimState) : Except Err SimState :=
  if command = [] then .ok st
  else if command = "*RST".data then
    .ok { st with
          channels := st.channels.map (fun p => (p.1, ChannelState.default))
          beeper_enabled := false
          display_screen := "HOME".data
          last_beep := none
          error_queue := [] }
  else if pyEnds command "reset()".data then
    let channel := idx0 (pySplitAll '.' command)
    .ok { st with channels := dictSet st.channels channel ChannelState.default }
  else if pyStarts command "beeper.enable".data then
    let value := pyLower (idxLast (pySplitAll '.' (pyStrip (idxLast (pySplitAll '=' command)))))
    .ok { st with beeper_enabled :=
            value = "1".data ∨ value = "on".data ∨ value = "true".data }
  else if pyStarts command "errorqueue.clear".data then
    .ok { st with error_queue := [] }
  else if pyStarts command "beeper.beep".data then
    .ok { st with last_beep := some command }
  else if pyStarts command "display.screen".data then
    .ok { st with display_screen :=
            idxLast (pySplitAll '.' (pyStrip (idxLast (pySplitAll '=' command)))) }
  else if pyStarts command "display.smu".data && pyContainsSub command "measure.func".data then
    match splitFirst '=' command with
    | none => .error (.valueError command)
    | some (l, r) =>
      let lhs := pyStrip l
      let rhs := pyStrip r
      match (pySplitAll '.' lhs).get? 1 with
      | none => .error .indexError
      | some channel =>
        match dictGet st.channels channel with
        | none => .error (.keyError channel)
        | some s =>
          .ok { st with channels :=
                  dictSet st.channels channel ({ s with display_measure := idxLast (pySplitAll '.' rhs) }) }
  else if command.contains '=' then
    match splitFirst '=' command with
    | none => .error (.valueError command)
    | some (l, r) =>
      let lhs := pyStrip l
      let rhs := pyStrip r
      match splitFirst '.' lhs with
      | none => .error (.valueError lhs)
      | some (channel, attrName) =>
        match dictGet st.channels channel with
        | none => .error (.notImplemented ("Simulator cannot handle command: ".data ++ command))
        | some s =>
          if attrName = "source.func".data then
            .ok { st with channels :=
                    dictSet st.channels channel ({ s with func := idxLast (pySplitAll '.' rhs) }) }
          else if attrName = "source.autorangev".data then
            .ok { st with channels :=
                    dictSet st.channels channel ({ s with autorange := pyEnds rhs "AUTORANGE_ON".data }) }
          else if attrName = "source.levelv".data then
            match pyFloat? rhs with
            | some q => .ok { st with channels :=
                                dictSet st.channels channel ({ s with level_v := q }) }
            | none => .error (.valueError rhs)
          else if attrName = "source.limiti".data then
            match pyFloat? rhs with
            | some q => .ok { st with channels :=
                                dictSet st.channels channel ({ s with limit_i := q }) }
            | none => .error (.valueError rhs)
          else if attrName = "source.output".data then
            .ok { st with channels :=
                    dictSet st.channels channel ({ s with output_on := pyEnds rhs "OUTPUT_ON".data }) }
          else if attrName = "measure.func".data then
            .ok { st with channels :=
                    dictSet st.channels channel ({ s with measure_func := idxLast (pySplitAll '.' rhs) }) }
          else if attrName = "measure.autorangev".data then
            .ok { st with channels :=
                    dictSet st.channels channel ({ s with measure_autorange := pyEnds rhs "AUTORANGE_ON".data }) }
          else .error (.notImplemented ("Simulator cannot handle command: ".data ++ command))
  else .error (.notImplemented ("Simulator cannot handle command: ".data ++ command))

/-- `SimulatedTransport.write`. -/
def SimWrite (st : SimState) (command : List Char) : Except Err SimState :=
  if st.is_open then processCmd (pyStrip command) st
  else .error (.runtime "Transport is not open".data)

/-- `SimulatedTransport._evaluate_expression`. -/
def evalExpr (expr : List Char) (st : SimState) : Except Err (List Char) :=
  if pyEnds expr ".source.compliance".data then
    let channel := idx0 (pySplitAll '.' expr)
    match dictGet st.channels channel with
    | none => .error (.keyError channel)
    | some s => .ok (if s.compliance then "1".data else "0".data)
  else if pyEnds expr ".measure.v()".data then
    let channel := idx0 (pySplitAll '.' expr)
    match dictGet st.channels channel with
    | none => .error (.keyError channel)
    | some s => .ok (qRenderChars s.level_v)
  else if pyEnds expr ".measure.i()".data then .ok "0.0".data
  else if expr = "errorqueue.count".data then .ok (digitsChars st.error_queue.length)
  else .error (.notImplemented ("Simulator cannot handle expression: ".data ++ expr))

/-- Pipe-delimited formatting of a popped error entry. -/
def entryFormat (e : ErrorTuple) : List Char :=
  intRender e.code ++ '|' :: e.message ++ '|' :: intRender e.severity ++ '|' :: intRender e.node

/-- `SimulatedTransport.query`. -/
def SimQuery (st : SimState) (command0 : List Char) : Except Err (List Char × SimState) :=
  if st.is_open = false then .error (.runtime "Transport is not open".data)
  else
    let command := pyStrip command0
    if command = "*IDN?".data then .ok (st.identity, st)
    else if pyContainsSub command "errorqueue.next()".data then
      match st.error_queue with
      | [] => .ok ([], st)
      | e :: rest =>
        if pyContainsSub command "string.format".data then
          .ok (entryFormat e, { st with error_queue := rest })
        else .ok (intRender e.code, { st with error_queue := rest })
    else if pyStarts command "print(".data && pyEnds command ")".data then
      match evalExpr ((command.drop 6).dropLast) st with
      | .ok r => .ok (r, st)
      | .error e => .error e
    else .error (.notImplemented ("Simulator cannot handle query: ".data ++ command))

/-- `SimulatedTransport.set_compliance` (test-only mutator). -/
def SimState.set_compliance (st : SimState) (channel : List Char) (b : Bool) : SimState :=
  match dictGet st.channels channel with
  | some s => { st with channels := dictSet st.channels channel ({ s with compliance := b }) }
  | none => st

/-- `SimulatedTransport.push_error` (test-only mutator). -/
def SimState.push_error (st : SimState) (e : ErrorTuple) : SimState :=
  { st with error_queue := st.error_queue ++ [e] }

/-! ## The controller (`controller.py`) -/

/-- `controller.Channel`. -/
inductive Channel
  | A
  | B
deriving DecidableEq

/-- `Channel.alias` (the protocol alias string). -/
def Channel.alias : Channel → List Char
  | .A => "smua".data
  | .B => "smub".data

/-- `controller.VoltageConfig`. -/
structure VoltageConfig where
  level_v : ℚ
  current_limit_a : ℚ
  autorange : Bool := true
deriving DecidableEq

/-- `controller.ErrorEntry`. -/
structure ErrorEntry where
  code : Int
  message : List Char
  severity : Int
  node : Int
deriving DecidableEq

/-- The controller's own mutable fields (`_channel`, `_connected`). -/
structure Ctrl where
  channel : Channel
  connected : Bool
deriving DecidableEq

/-- A transport call (or dwell pause) as observed on the wire. -/
inductive Op
  | write (cmd : List Char)
  | query (cmd : List Char)
  | sleep (dwell : ℚ)
deriving DecidableEq

/-- Number of dwell pauses (`time.sleep` calls) in a trace. -/
def sleepCount (tr : List Op) : Nat :=
  tr.countP (fun o => match o with | .sleep _ => true | _ => false)

/-- The transport contract (`transport.InstrumentTransport`), as a record of
state-passing operations over a transport-state type `τ`. -/
structure TransportModel (τ : Type) where
  openT : τ → τ
  closeT : τ → τ
  write : τ → List Char → Except Err τ
  query : τ → List Char → Except Err (List Char × τ)

/-- The `SimulatedTransport` instance of the transport contract. -/
def simTransport : TransportModel SimState :=
  { openT := fun st => { st with is_open := true }
    closeT := fun st => { st with is_open := false }
    write := SimWrite
    query := SimQuery }

/-- Result of a controller operation: outcome, final transport state, and the
trace of transport calls made (state and trace survive an exception, as in
Python). -/
def Res (τ α : Type) := Except Err α × τ × List Op

/-- Sequencing of controller steps; an exception aborts the continuation but
keeps the trace so far. -/
def rbind {τ α β : Type} (r : Res τ α) (f : α → τ → Res τ β) : Res τ β :=
  match r with
  | (.ok a, st, tr) =>
    match f a st with
    | (e, st', tr') => (e, st', tr ++ tr')
  | (.error e, st, tr) => (.error e, st, tr)

/-- `Keithley2612Controller._write`: connected guard, then transport write. -/
def ctrlWrite {τ : Type} (T : TransportModel τ) (c : Ctrl) (st : τ) (cmd : List Char) :
    Res τ Unit :=
  if c.connected then
    match T.write st cmd with
    | .ok st' => (.ok (), st', [.write cmd])
    | .error e => (.error e, st, [.write cmd])
  else (.error (.runtime "Instrument is not connected".data), st, [])

/-- A raw `self._transport.query(...)` call (no connected guard in the
source), with the call recorded in the trace. -/
def tQuery {τ : Type} (T : TransportModel τ) (st : τ) (cmd : List Char) :
    Res τ (List Char) :=
  match T.query st cmd with
  | .ok (r, st') => (.ok r, st', [.query cmd])
  | .error e => (.error e, st, [.query cmd])

/-- `Keithley2612Controller._batch_write`. -/
def batchWrite {τ : Type} (T : TransportModel τ) (c : Ctrl) (st : τ) :
    List (List Char) → Res τ Unit
  | [] => (.ok (), st, [])
  | cmd :: rest => rbind (ctrlWrite T c st cmd) (fun _ st' => batchWrite T c st' rest)

/-- `Keithley2612Controller.identify`. -/
def identify {τ : Type} (T : TransportModel τ) (_c : Ctrl) (st : τ) : Res τ (List Char) :=
  tQuery T st "*IDN?".data

/-- `Keithley2612Controller.reset`. -/
def resetCtrl {τ : Type} (T : TransportModel τ) (c : Ctrl) (st : τ) : Res τ Unit :=
  rbind (ctrlWrite T c st "*RST".data) fun _ st =>
    ctrlWrite T c st (c.channel.alias ++ ".reset()".data)

/-- `Keithley2612Controller.select_channel`; note the source updates
`self._channel` before issuing the reset write. -/
def select_channel {τ : Type} (T : TransportModel τ) (c : Ctrl) (st : τ) (ch : Channel) :
    Except Err Unit × Ctrl × τ × List Op :=
  if ch = c.channel then (.ok (), c, st, [])
  else
    let c' : Ctrl := { c with channel := ch }
    match ctrlWrite T c' st (ch.alias ++ ".reset()".data) with
    | (e, st', tr) => (e, c', st', tr)

/-- `Keithley2612Controller.configure_voltage_source`. -/
def configure_voltage_source {τ : Type} (T : TransportModel τ) (c : Ctrl) (st : τ)
    (config : VoltageConfig) : Res τ Unit :=
  let al := c.channel.alias
  let commands : List (List Char) :=
    [al ++ ".source.func = ".data ++ al ++ ".OUTPUT_DCVOLTS".data] ++
    (if config.autorange then [al ++ ".source.autorangev = ".data ++ al ++ ".AUTORANGE_ON".data]
     else [al ++ ".source.autorangev = ".data ++ al ++ ".AUTORANGE_OFF".data]) ++
    [al ++ ".source.levelv = ".data ++ qRenderChars config.level_v,
     al ++ ".source.limiti = ".data ++ qRenderChars config.current_limit_a]
  batchWrite T c st commands

/-- `Keithley2612Controller.set_voltage`. -/
def set_voltage {τ : Type} (T : TransportModel τ) (c : Ctrl) (st : τ) (level_v : ℚ) :
    Res τ Unit :=
  ctrlWrite T c st (c.channel.alias ++ ".source.levelv = ".data ++ qRenderChars level_v)

/-- `Keithley2612Controller.set_current_limit`. -/
def set_current_limit {τ : Type} (T : TransportModel τ) (c : Ctrl) (st : τ)
    (current_limit_a : ℚ) : Res τ Unit :=
  ctrlWrite T c st (c.channel.alias ++ ".source.limiti = ".data ++ qRenderChars current_limit_a)

/-- `Keithley2612Controller.read_compliance`. -/
def read_compliance {τ : Type} (T : TransportModel τ) (c : Ctrl) (st : τ) : Res τ Bool :=
  rbind (tQuery T st ("print(".data ++ c.channel.alias ++ ".source.compliance)".data))
    fun response st =>
      (.ok (decide (pyStrip response = "1".data ∨ pyStrip response = "true".data ∨
        pyStrip response = "True".data)), st, [])

/-- `Keithley2612Controller.quick_set_source`. -/
def quick_set_source {τ : Type} (T : TransportModel τ) (c : Ctrl) (st : τ)
    (level_v current_limit_a : Option ℚ) : Res τ Bool :=
  let al := c.channel.alias
  let commands : List (List Char) :=
    (match level_v with
     | some l => [al ++ ".source.levelv = ".data ++ qRenderChars l]
     | none => []) ++
    (match current_limit_a with
     | some l => [al ++ ".source.limiti = ".data ++ qRenderChars l]
     | none => [])
  rbind (batchWrite T c st commands) fun _ st => read_compliance T c st

/-- `Keithley2612Controller.measure_voltage`. -/
def measure_voltage {τ : Type} (T : TransportModel τ) (c : Ctrl) (st : τ) : Res τ ℚ :=
  rbind (tQuery T st ("print(".data ++ c.channel.alias ++ ".measure.v())".data))
    fun response st =>
      match pyFloat? response with
      | some v => (.ok v, st, [])
      | none => (.error (.valueError ("Unexpected voltage reading: ".data ++ response)), st, [])

/-- `Keithley2612Controller._safe_measure_voltage`. -/
def safe_measure_voltage {τ : Type} (T : TransportModel τ) (c : Ctrl) (st : τ) :
    Res τ (Option ℚ) :=
  match measure_voltage T c st with
  | (.ok v, st', tr) => (.ok (some v), st', tr)
  | (.error _, st', tr) => (.ok none, st', tr)

/-- `float(... or 0.0)` applied to a query response. -/
def floatOr0 (response : List Char) : Except Err ℚ :=
  if response.isEmpty then .ok 0
  else
    match pyFloat? response with
    | some q => .ok q
    | none => .error (.valueError response)

/-- The `print(<alias>.source.levelv)` query string. -/
def levelQuery (c : Ctrl) : List Char :=
  "print(".data ++ c.channel.alias ++ ".source.levelv)".data

/-- The stepping loop of `ramp_to_voltage` (`for i in range(steps): ...`). -/
def rampLoop {τ : Type} (T : TransportModel τ) (c : Ctrl)
    (target_v step_v dwell_s : ℚ) (current_limit_a : Option ℚ) (dir : ℚ) :
    Nat → Nat → ℚ → Bool → τ → Res τ Bool
  | 0, _, _, compliance, st => (.ok compliance, st, [])
  | Nat.succ k, i, level, compliance, st =>
    let remaining := target_v - level
    let increment := dir * min step_v |remaining|
    let level' := level + increment
    rbind (quick_set_source T c st (some level') (if i = 0 then current_limit_a else none))
      fun c2 st =>
        rbind (safe_measure_voltage T c st) fun _ st =>
          let sl : List Op := if dwell_s ≠ 0 then [.sleep dwell_s] else []
          match rampLoop T c target_v step_v dwell_s current_limit_a dir k (i + 1) level'
              (c2 || compliance) st with
          | (e, st', tr) => (e, st', sl ++ tr)

/-- `Keithley2612Controller.ramp_to_voltage` (progress callback omitted:
it receives values already present in the trace and has no effect on
state). -/
def ramp_to_voltage {τ : Type} (T : TransportModel τ) (c : Ctrl) (st : τ)
    (target_v step_v dwell_s : ℚ) (current_limit_a : Option ℚ) : Res τ Bool :=
  if step_v ≤ 0 then (.error (.valueError "step_v must be positive".data), st, [])
  else if dwell_s < 0 then (.error (.valueError "dwell_s must be non-negative".data), st, [])
  else
    rbind (tQuery T st (levelQuery c)) fun response st =>
      match floatOr0 response with
      | .error e => (.error e, st, [])
      | .ok current_level =>
        let delta := target_v - current_level
        if |delta| ≤ step_v then
          rbind (quick_set_source T c st (some target_v) current_limit_a) fun compliance st =>
            rbind (safe_measure_voltage T c st) fun _ st => (.ok compliance, st, [])
        else
          let fl : Int := ratFloor (|delta| / step_v)
          let steps : Nat := fl.toNat + (if |delta| - step_v * fl ≠ 0 then 1 else 0)
          let dir : ℚ := if delta > 0 then 1 else -1
          rampLoop T c target_v step_v dwell_s current_limit_a dir steps 0 current_level false st

/-- `Keithley2612Controller.ramp_to_zero`. -/
def ramp_to_zero {τ : Type} (T : TransportModel τ) (c : Ctrl) (st : τ)
    (step_v dwell_s tolerance_v : ℚ) (current_limit_a : Option ℚ) : Res τ Bool :=
  rbind (tQuery T st (levelQuery c)) fun response st =>
    match floatOr0 response with
    | .error e => (.error e, st, [])
    | .ok current_level =>
      if |current_level| ≤ tolerance_v then (.ok false, st, [])
      else
        rbind (ramp_to_voltage T c st 0 step_v dwell_s current_limit_a) fun compliance st =>
          rbind (tQuery T st (levelQuery c)) fun response2 st =>
            match floatOr0 response2 with
            | .error e => (.error e, st, [])
            | .ok current_level2 =>
              if |current_level2| > tolerance_v then
                rbind (quick_set_source T c st (some 0) current_limit_a) fun _ st =>
                  (.ok compliance, st, [])
              else (.ok compliance, st, [])

/-- `Keithley2612Controller.enable_output`. -/
def enable_output {τ : Type} (T : TransportModel τ) (c : Ctrl) (st : τ) (enabled : Bool) :
    Res τ Unit :=
  let al := c.channel.alias
  let state := if enabled then "OUTPUT_ON".data else "OUTPUT_OFF".data
  ctrlWrite T c st (al ++ ".source.output = ".data ++ al ++ ".".data ++ state)

/-- The pop-and-format script sent by `drain_error_queue`. -/
def drainScript : List Char :=
  ("local code, msg, severity, node = errorqueue.next();" ++
   "if code then print(string.format(\x27%d|%s|%d|%d\x27, code, msg, severity, node)) end").data

/-- Parsing of one pop response inside `drain_error_queue`'s loop. -/
def parseEntry (response : List Char) : Option ErrorEntry :=
  let text := pyStrip response
  if text.isEmpty then none
  else
    match pySplit3 '|' text with
    | [code, message, severity, node] =>
      match parseInt? code, parseInt? severity, parseInt? node with
      | some ci, some si, some ni => some ⟨ci, message, si, ni⟩
      | _, _, _ => none
    | _ => none

/-- The pop loop of `drain_error_queue` (`for _ in range(count): ...`). -/
def drainLoop {τ : Type} (T : TransportModel τ) :
    Nat → τ → List ErrorEntry → Res τ (List ErrorEntry)
  | 0, st, entries => (.ok entries, st, [])
  | Nat.succ k, st, entries =>
    rbind (tQuery T st drainScript) fun response st =>
      match parseEntry response with
      | some e => drainLoop T k st (entries ++ [e])
      | none => drainLoop T k st entries

/-- Message text of an exception, as interpolated by `f"... {exc}"`. -/
def errText : Err → List Char
  | .runtime m => m
  | .notImplemented m => m
  | .valueError m => m
  | .keyError m => m
  | .indexError => []

/-- `Keithley2612Controller.drain_error_queue`. -/
def drain_error_queue {τ : Type} (T : TransportModel τ) (_c : Ctrl) (st : τ) :
    Res τ (List ErrorEntry) :=
  match tQuery T st "print(errorqueue.count)".data with
  | (.error e, st', tr) =>
    (.error (.runtime ("Failed to read error count: ".data ++ errText e)), st', tr)
  | (.ok count_resp, st', tr) =>
    let s1 := if count_resp.isEmpty then "0".data else count_resp
    let s2 := pyStrip s1
    let s3 := if s2.isEmpty then "0".data else s2
    let count : Int := (parseInt? s3).getD 0
    if count ≤ 0 then (.ok [], st', tr)
    else
      match drainLoop T count.toNat st' [] with
      | (e, st'', tr') => (e, st'', tr ++ tr')

/-- `Keithley2612Controller.set_beeper_enabled`. -/
def set_beeper_enabled {τ : Type} (T : TransportModel τ) (c : Ctrl) (st : τ) (enabled : Bool) :
    Res τ Unit :=
  let state := if enabled then "beeper.ON".data else "beeper.OFF".data
  ctrlWrite T c st ("beeper.enable = ".data ++ state)

/-- `Keithley2612Controller.beep`. -/
def beep {τ : Type} (T : TransportModel τ) (c : Ctrl) (st : τ) (duration : ℚ)
    (frequency_hz : Int) : Res τ Unit :=
  ctrlWrite T c st ("beeper.beep(".data ++ qRenderChars duration ++ ", ".data ++
    intRender frequency_hz ++ ")".data)

/-- `Keithley2612Controller.configure_display_for_voltage`. -/
def configure_display_for_voltage {τ : Type} (T : TransportModel τ) (c : Ctrl) (st : τ) :
    Res τ Unit :=
  let al := c.channel.alias
  let commands : List (List Char) :=
    ["display.screen = display.".data ++ pyUpper al,
     "display.".data ++ al ++ ".measure.func = display.MEASURE_DCVOLTS".data]
  batchWrite T c st commands

/-- `Keithley2612Controller.connect` (updates both controller flag and
transport state). -/
def connect {τ : Type} (T : TransportModel τ) (c : Ctrl) (st : τ) : Ctrl × τ :=
  if c.connected then (c, st)
  else ({ c with connected := true }, T.openT st)

/-- `Keithley2612Controller.disconnect`. -/
def disconnect {τ : Type} (T : TransportModel τ) (c : Ctrl) (st : τ) : Ctrl × τ :=
  if c.connected then ({ c with connected := false }, T.closeT st)
  else (c, st)

/-- Modelled from the spec (section 4.2's write-command table): the
emulator's documented write vocabulary, at the granularity of the claim
(reset tokens, beeper, error-queue-clear, display, and channel
source/measure assignments). -/
def specWriteVocab (cmd : List Char) : Bool :=
  (cmd = "*RST".data) ||
  (cmd = "smua.reset()".data) || (cmd = "smub.reset()".data) ||
  pyStarts cmd "beeper.enable".data ||
  pyStarts cmd "errorqueue.clear".data ||
  pyStarts cmd "beeper.beep".data ||
  pyStarts cmd "display.screen".data ||
  (pyStarts cmd "display.smu".data && pyContainsSub cmd "measure.func".data) ||
  (match splitFirst '=' cmd with
   | none => false
   | some (l, _) =>
     match splitFirst '.' (pyStrip l) with
     | none => false
     | some (chan, attrName) =>
       (chan = "smua".data || chan = "smub".data) &&
       (attrName = "source.func".data || attrName = "source.autorangev".data ||
        attrName = "source.levelv".data || attrName = "source.limiti".data ||
        attrName = "source.output".data || attrName = "measure.func".data ||
        attrName = "measure.autorangev".data))

def ErrorTuple.toEntry (e : ErrorTuple) : ErrorEntry :=
  ⟨e.code, e.message, e.severity, e.node⟩

/-- An instance of the transport contract (`InstrumentTransport` allows any
implementation) used as a concrete test instrument: every write is accepted
and every query answers `0`. -/
def constTransport : TransportModel Unit :=
  { openT := fun _ => ()
    closeT := fun _ => ()
    write := fun _ _ => .ok ()
    query := fun _ _ => .ok ("0".data, ()) }

/-- An instance of the transport contract used as a concrete test
instrument: writes are accepted without effect and queries are answered from
a fixed response list indexed by a query counter. -/
def toyTransport : TransportModel Nat :=
  { openT := id
    closeT := id
    write := fun n _ => .ok n
    query := fun n _ =>
      .ok ((["1/2", "1/2", "0", "0/1", "1/10", "1"].getD n "0").data, n + 1) }

/-- Modelled from the spec's invariant wording (a write is "addressed to a
channel" when its text is prefixed by that channel's alias). -/
def addressedTo (ch : Channel) : Op → Bool
  | .write cmd => pyStarts cmd (ch.alias ++ ".".data)
  | _ => false

/-- Modelled from the spec's invariant wording: the operations that count as
"a reset" of a channel (the global `*RST` or the channel's own reset). -/
def resetOf (ch : Channel) : Op → Bool
  | .write cmd => cmd = "*RST".data || cmd = ch.alias ++ ".reset()".data
  | _ => false

/-- Modelled from the spec's invariant: scanning a trace from the start, the
first command addressed to `ch` (if any) is a reset of `ch`. -/
def goodTrace (ch : Channel) : List Op → Bool
  | [] => true
  | o :: rest =>
    if resetOf ch o then true
    else if addressedTo ch o then false
    else goodTrace ch rest

/-- An op in a trace that can never invalidate `goodTrace ch`: either a
reset of `ch` or not addressed to `ch` at all. -/
def BSafe (ch : Channel) (o : Op) : Bool :=
  resetOf ch o || !(addressedTo ch o)

/-- The controller's public operations (excluding connect/disconnect), for
quantifying over operation sequences. -/
inductive CtrlOp where
  | identifyOp
  | resetOp
  | selectOp (ch : Channel)
  | configureOp (cfg : VoltageConfig)
  | setVoltageOp (v : ℚ)
  | setLimitOp (i : ℚ)
  | readComplianceOp
  | quickSetOp (l i : Option ℚ)
  | measureOp
  | rampOp (t s d : ℚ) (lim : Option ℚ)
  | rampZeroOp (s d tol : ℚ) (lim : Option ℚ)
  | enableOutputOp (b : Bool)
  | drainOp
  | beeperOp (b : Bool)
  | beepOp (d : ℚ) (f : Int)
  | displayOp

/-- One controller operation: resulting controller fields, transport state,
and emitted trace (exceptions are discarded; state and trace survive them,
as in Python). -/
def runOp {τ : Type} (T : TransportModel τ) (c : Ctrl) (st : τ) : CtrlOp → Ctrl × τ × List Op
  | .identifyOp => (c, (identify T c st).2.1, (identify T c st).2.2)
  | .resetOp => (c, (resetCtrl T c st).2.1, (resetCtrl T c st).2.2)
  | .selectOp ch =>
    ((select_channel T c st ch).2.1, (select_channel T c st ch).2.2.1,
      (select_channel T c st ch).2.2.2)
  | .configureOp cfg =>
    (c, (configure_voltage_source T c st cfg).2.1, (configure_voltage_source T c st cfg).2.2)
  | .setVoltageOp v => (c, (set_voltage T c st v).2.1, (set_voltage T c st v).2.2)
  | .setLimitOp i => (c, (set_current_limit T c st i).2.1, (set_current_limit T c st i).2.2)
  | .readComplianceOp => (c, (read_compliance T c st).2.1, (read_compliance T c st).2.2)
  | .quickSetOp l i => (c, (quick_set_source T c st l i).2.1, (quick_set_source T c st l i).2.2)
  | .measureOp => (c, (measure_voltage T c st).2.1, (measure_voltage T c st).2.2)
  | .rampOp t s d lim =>
    (c, (ramp_to_voltage T c st t s d lim).2.1, (ramp_to_voltage T c st t s d lim).2.2)
  | .rampZeroOp s d tol lim =>
    (c, (ramp_to_zero T c st s d tol lim).2.1, (ramp_to_zero T c st s d tol lim).2.2)
  | .enableOutputOp b => (c, (enable_output T c st b).2.1, (enable_output T c st b).2.2)
  | .drainOp => (c, (drain_error_queue T c st).2.1, (drain_error_queue T c st).2.2)
  | .beeperOp b => (c, (set_beeper_enabled T c st b).2.1, (set_beeper_enabled T c st b).2.2)
  | .beepOp d f => (c, (beep T c st d f).2.1, (beep T c st d f).2.2)
  | .displayOp =>
    (c, (configure_display_for_voltage T c st).2.1, (configure_display_for_voltage T c st).2.2)

/-- A sequence of controller operations with the accumulated trace. -/
def runOps {τ : Type} (T : TransportModel τ) (c : Ctrl) (st : τ) : List CtrlOp → Ctrl × τ × List Op
  | [] => (c, st, [])
  | op :: rest =>
    match runOp T c st op with
    | (c1, st1, tr1) =>
      match runOps T c1 st1 rest with
      | (c2, st2, tr2) => (c2, st2, tr1 ++ tr2)

/-! ## Lemmas -/

lemma digitsCharsAux_stable :
    ∀ n f₁ f₂ : Nat, n < f₁ → n < f₂ → digitsCharsAux f₁ n = digitsCharsAux f₂ n := by
  intro n
  induction n using Nat.strong_induction_on with
  | _ n ih =>
    intro f₁ f₂ h₁ h₂
    match f₁, f₂ with
    | Nat.succ g₁, Nat.succ g₂ =>
      simp only [digitsCharsAux]
      split
      · rfl
      · rename_i hn
        have hlt : n / 10 < n := Nat.div_lt_self (by omega) (by omega)
        rw [ih (n / 10) hlt g₁ g₂ (by omega) (by omega)]

/-- One-step unfolding of `digitsChars`. -/
lemma digitsChars_eq (n : Nat) :
    digitsChars n =
      if n < 10 then [digitChar n] else digitsChars (n / 10) ++ [digitChar (n % 10)] := by
  unfold digitsChars
  rw [show digitsCharsAux (n + 1) n = if n < 10 then [digitChar n]
      else digitsCharsAux n (n / 10) ++ [digitChar (n % 10)] from rfl]
  split
  · rfl
  · rw [digitsCharsAux_stable (n / 10) n (n / 10 + 1)
      (Nat.div_lt_self (by omega) (by omega)) (by omega)]


/-! ### Round-trip lemmas for the wire number format -/

lemma charToDigit?_digitChar {d : Nat} (h : d < 10) :
    charToDigit? (digitChar d) = some d := by
  interval_cases d <;> rfl

lemma isDigitChar_digitChar (d : Nat) : isDigitChar (digitChar d) = true := by
  unfold digitChar
  split_ifs <;> rfl

lemma digit_char_props {c : Char} (h : isDigitChar c = true) :
    isSpaceChar c = false ∧ c ≠ '/' ∧ c ≠ '-' ∧ c ≠ '|' ∧ c ≠ '.' ∧
      c ≠ '=' ∧ c ≠ ')' ∧ c ≠ '(' := by
  unfold isDigitChar charToDigit? at h
  split_ifs at h with h0 h1 h2 h3 h4 h5 h6 h7 h8 h9
  · subst h0; exact ⟨rfl, by decide, by decide, by decide, by decide, by decide, by decide, by decide⟩
  · subst h1; exact ⟨rfl, by decide, by decide, by decide, by decide, by decide, by decide, by decide⟩
  · subst h2; exact ⟨rfl, by decide, by decide, by decide, by decide, by decide, by decide, by decide⟩
  · subst h3; exact ⟨rfl, by decide, by decide, by decide, by decide, by decide, by decide, by decide⟩
  · subst h4; exact ⟨rfl, by decide, by decide, by decide, by decide, by decide, by decide, by decide⟩
  · subst h5; exact ⟨rfl, by decide, by decide, by decide, by decide, by decide, by decide, by decide⟩
  · subst h6; exact ⟨rfl, by decide, by decide, by decide, by decide, by decide, by decide, by decide⟩
  · subst h7; exact ⟨rfl, by decide, by decide, by decide, by decide, by decide, by decide, by decide⟩
  · subst h8; exact ⟨rfl, by decide, by decide, by decide, by decide, by decide, by decide, by decide⟩
  · subst h9; exact ⟨rfl, by decide, by decide, by decide, by decide, by decide, by decide, by decide⟩
  · simp at h

lemma digitsChars_ne_nil (n : Nat) : digitsChars n ≠ [] := by
  rw [digitsChars_eq]
  split <;> simp

lemma digitsChars_digits (n : Nat) : ∀ c ∈ digitsChars n, isDigitChar c = true := by
  induction n using Nat.strong_induction_on with
  | _ n ih =>
    rw [digitsChars_eq]
    split
    · intro c hc
      simp only [List.mem_singleton] at hc
      subst hc
      exact isDigitChar_digitChar n
    · intro c hc
      rcases List.mem_append.1 hc with h | h
      · exact ih (n / 10) (Nat.div_lt_self (by omega) (by omega)) c h
      · simp only [List.mem_singleton] at h
        subst h
        exact isDigitChar_digitChar (n % 10)

lemma parseNatAux_append (l₁ l₂ : List Char) (acc : Nat) :
    parseNatAux (l₁ ++ l₂) acc =
      (parseNatAux l₁ acc).bind (fun v => parseNatAux l₂ v) := by
  induction l₁ generalizing acc with
  | nil => simp [parseNatAux]
  | cons c cs ih =>
    simp only [List.cons_append, parseNatAux]
    cases charToDigit? c with
    | none => simp
    | some d => simp [ih]

lemma parseNatAux_digitsChars :
    ∀ n acc : Nat, ∃ k : Nat, parseNatAux (digitsChars n) acc = some (acc * 10 ^ k + n) := by
  intro n
  induction n using Nat.strong_induction_on with
  | _ n ih =>
    intro acc
    rw [digitsChars_eq]
    split
    · refine ⟨1, ?_⟩
      rename_i h
      simp [parseNatAux, charToDigit?_digitChar h]
      ring
    · rename_i h
      obtain ⟨k, hk⟩ := ih (n / 10) (Nat.div_lt_self (by omega) (by omega)) acc
      refine ⟨k + 1, ?_⟩
      rw [parseNatAux_append, hk]
      simp [parseNatAux, charToDigit?_digitChar (Nat.mod_lt n (by omega))]
      ring_nf
      omega

lemma parseNat?_digitsChars (n : Nat) : parseNat? (digitsChars n) = some n := by
  obtain ⟨k, hk⟩ := parseNatAux_digitsChars n 0
  unfold parseNat?
  rw [if_neg (by simp [List.isEmpty_iff, digitsChars_ne_nil]), hk]
  simp

lemma digitsChars_head_not_neg (n : Nat) :
    (digitsChars n).head? ≠ some '-' := by
  intro h
  rcases hd : digitsChars n with _ | ⟨c, cs⟩
  · exact digitsChars_ne_nil n hd
  · rw [hd] at h
    simp only [List.head?_cons, Option.some.injEq] at h
    have := digitsChars_digits n c (by rw [hd]; exact List.mem_cons_self c cs)
    subst h
    simp [isDigitChar, charToDigit?] at this

lemma parseInt?_intRender (i : Int) : parseInt? (intRender i) = some i := by
  by_cases h : i < 0
  · rw [intRender, if_pos h, parseInt?, if_pos (by simp)]
    simp only [List.tail_cons, parseNat?_digitsChars, Option.map_some', Option.some.injEq]
    omega
  · rw [intRender, if_neg h, parseInt?, if_neg (digitsChars_head_not_neg i.natAbs)]
    simp only [parseNat?_digitsChars, Option.map_some', Option.some.injEq]
    omega

lemma splitFirst_append {c : Char} {l₁ : List Char} (h : c ∉ l₁) (l₂ : List Char) :
    splitFirst c (l₁ ++ c :: l₂) = some (l₁, l₂) := by
  induction l₁ with
  | nil => simp [splitFirst]
  | cons a as ih =>
    simp only [List.mem_cons, not_or] at h
    have hne : ¬ a = c := fun hh => h.1 hh.symm
    rw [List.cons_append, splitFirst, if_neg hne, ih h.2]
    rfl

lemma not_mem_intRender_slash (i : Int) : '/' ∉ intRender i := by
  intro hmem
  unfold intRender at hmem
  split_ifs at hmem with h
  · rcases List.mem_cons.1 hmem with h' | h'
    · exact absurd h'.symm (by decide)
    · exact ((digit_char_props (digitsChars_digits _ _ h')).2.1) rfl
  · exact ((digit_char_props (digitsChars_digits _ _ hmem)).2.1) rfl

/-- The wire number format round-trips exactly, modelling Python's
`float(repr(x)) == x`. -/
lemma pyFloat?_qRenderChars (q : ℚ) : pyFloat? (qRenderChars q) = some q := by
  unfold pyFloat? qRenderChars
  rw [splitFirst_append (not_mem_intRender_slash q.num)]
  simp [parseInt?_intRender, parseNat?_digitsChars, Rat.num_div_den]

lemma ratFloor_eq_floor (q : ℚ) : ratFloor q = ⌊q⌋ := Rat.floor_def.symm


/-! ### String-method lemmas -/

lemma pyStrip_eq_self {l : List Char} (h1 : ∀ c, l.head? = some c → isSpaceChar c = false)
    (h2 : ∀ c, l.getLast? = some c → isSpaceChar c = false) : pyStrip l = l := by
  unfold pyStrip
  rcases l with _ | ⟨a, as⟩
  · rfl
  · rw [List.dropWhile_cons, if_neg (by simp [h1 a rfl])]
    rcases hrev : ((a :: as).reverse) with _ | ⟨b, bs⟩
    · simpa using congrArg List.length hrev
    · have hb : isSpaceChar b = false := by
        apply h2
        rw [← List.head?_reverse, hrev]
        rfl
      rw [List.dropWhile_cons, if_neg (by simp [hb]), ← hrev, List.reverse_reverse]

lemma pyStrip_cons_space (l : List Char) : pyStrip (' ' :: l) = pyStrip l := by
  unfold pyStrip
  rw [List.dropWhile_cons, if_pos (by decide)]

lemma intRender_ne_nil (i : Int) : intRender i ≠ [] := by
  unfold intRender
  split <;> simp [digitsChars_ne_nil]

lemma qRenderChars_ne_nil (q : ℚ) : qRenderChars q ≠ [] := by
  unfold qRenderChars
  simp [intRender_ne_nil]

lemma qRenderChars_getLast {q : ℚ} {c : Char} (h : (qRenderChars q).getLast? = some c) :
    isDigitChar c = true := by
  unfold qRenderChars at h
  rcases hd : digitsChars q.den with _ | ⟨b, bs⟩
  · exact absurd hd (digitsChars_ne_nil _)
  · rw [List.getLast?_append_of_ne_nil _ (by simp), hd, List.getLast?_cons_cons] at h
    have hmem : c ∈ b :: bs := by
      rcases hq : (b :: bs).getLast? with _ | d
      · simp at hq
      · rw [hq] at h
        cases h
        exact List.mem_of_getLast?_eq_some hq
    have := digitsChars_digits q.den c (by rw [hd]; exact hmem)
    exact this

lemma qRenderChars_head {q : ℚ} {c : Char} (h : (qRenderChars q).head? = some c) :
    isSpaceChar c = false := by
  unfold qRenderChars intRender at h
  split at h
  · simp at h
    subst h
    rfl
  · rcases hd : digitsChars q.num.natAbs with _ | ⟨b, bs⟩
    · exact absurd hd (digitsChars_ne_nil _)
    · rw [hd] at h
      simp at h
      subst h
      have := digitsChars_digits q.num.natAbs b (by rw [hd]; exact List.mem_cons_self b bs)
      exact (digit_char_props this).1

lemma pyStrip_qRenderChars (q : ℚ) : pyStrip (qRenderChars q) = qRenderChars q :=
  pyStrip_eq_self (fun _ h => qRenderChars_head h)
    (fun _ h => (digit_char_props (qRenderChars_getLast h)).1)

lemma pyStrip_space_qRenderChars (q : ℚ) :
    pyStrip (' ' :: qRenderChars q) = qRenderChars q := by
  rw [pyStrip_cons_space, pyStrip_qRenderChars]

lemma pyEnds_false_of_getLast {l p : List Char} {c c' : Char} (hl : l.getLast? = some c)
    (hp : p.getLast? = some c') (hne : c ≠ c') : pyEnds l p = false := by
  unfold pyEnds
  by_contra hb
  rw [Bool.not_eq_false, List.isSuffixOf_iff_suffix] at hb
  obtain ⟨t, rfl⟩ := hb
  rw [List.getLast?_append_of_ne_nil _ (by rintro rfl; simp at hp), hp] at hl
  cases hl
  exact hne rfl

lemma splitFirst_append_left (c : Char) (l₁ l₂ : List Char) :
    splitFirst c (l₁ ++ l₂) =
      match splitFirst c l₁ with
      | some (a, b) => some (a, b ++ l₂)
      | none => (splitFirst c l₂).map (fun p => (l₁ ++ p.1, p.2)) := by
  induction l₁ with
  | nil => simp [splitFirst]
  | cons a as ih =>
    rw [List.cons_append, splitFirst, splitFirst]
    by_cases hac : a = c
    · rw [if_pos hac, if_pos hac]
    · rw [if_neg hac, if_neg hac, ih]
      rcases splitFirst c as with _ | ⟨x, y⟩
      · rcases splitFirst c l₂ with _ | ⟨x, y⟩ <;> rfl
      · rfl

lemma contains_append_left {c : Char} {L : List Char} (R : List Char)
    (h : L.contains c = true) : (L ++ R).contains c = true := by
  unfold List.contains at h ⊢
  simp only [List.elem_eq_mem, decide_eq_true_eq] at h ⊢
  exact List.mem_append_left R h

lemma append_ne_concrete {L R l₂ : List Char} (h : l₂.length < L.length) : L ++ R ≠ l₂ := by
  intro hh
  have := congrArg List.length hh
  rw [List.length_append] at this
  omega

lemma isPrefixOf_append_of_le : ∀ (p L R : List Char), p.length ≤ L.length →
    (p.isPrefixOf (L ++ R)) = p.isPrefixOf L
  | [], _, _, _ => by simp [List.isPrefixOf]
  | _ :: _, [], _, h => by simp at h
  | a :: as, b :: bs, R, h => by
    simp only [List.cons_append, List.isPrefixOf, List.append_eq]
    rw [isPrefixOf_append_of_le as bs R (by simpa using h)]

lemma pyStarts_append_of_le {L p : List Char} (R : List Char) (h : p.length ≤ L.length) :
    pyStarts (L ++ R) p = pyStarts L p := by
  unfold pyStarts
  exact isPrefixOf_append_of_le p L R h

lemma pyEnds_append_qRender_ne {L : List Char} (q : ℚ) {p : List Char} {c' : Char}
    (hp : p.getLast? = some c') (hc' : ∀ c : Char, isDigitChar c = true → c ≠ c') :
    pyEnds (L ++ qRenderChars q) p = false := by
  rcases hq : (qRenderChars q).getLast? with _ | c
  · rw [List.getLast?_eq_none_iff] at hq
    exact absurd hq (qRenderChars_ne_nil q)
  · exact pyEnds_false_of_getLast
      (by rw [List.getLast?_append_of_ne_nil _ (qRenderChars_ne_nil q)]; exact hq) hp
      (hc' c (qRenderChars_getLast hq))

/-! ### Dict lemmas -/

lemma dictGet_dictSet_self (d : List (List Char × ChannelState)) (k : List Char)
    (v : ChannelState) : dictGet (dictSet d k v) k = some v := by
  induction d with
  | nil => simp [dictSet, dictGet]
  | cons p ps ih =>
    rw [dictSet]
    by_cases h : p.1 == k
    · rw [if_pos h, dictGet, if_pos (by simp)]
    · rw [if_neg h, dictGet, if_neg h, ih]

lemma dictGet_dictSet_ne (d : List (List Char × ChannelState)) {k k' : List Char}
    (v : ChannelState) (h : k' ≠ k) : dictGet (dictSet d k v) k' = dictGet d k' := by
  induction d with
  | nil =>
    simp [dictSet, dictGet]
    exact fun hh => h hh.symm
  | cons p ps ih =>
    rw [dictSet]
    by_cases hpk : p.1 == k
    · rw [if_pos hpk, dictGet, if_neg (by simp; intro hh; exact h hh.symm), dictGet,
        if_neg (by rw [eq_of_beq hpk]; simp; intro hh; exact h hh.symm)]
    · rw [if_neg hpk, dictGet, dictGet]
      by_cases hpk' : p.1 == k'
      · rw [if_pos hpk', if_pos hpk']
      · rw [if_neg hpk', if_neg hpk', ih]

/-! ### processCmd evaluation lemmas -/

lemma processCmd_assign
    {L lhsRaw lhsS chan attr : List Char} (R : List Char) (st : SimState)
    (hlen : 4 < L.length)
    (hp1 : pyStarts L "beeper.enable".data = false)
    (hq1 : ("beeper.enable".data).length ≤ L.length)
    (hp2 : pyStarts L "errorqueue.clear".data = false)
    (hq2 : ("errorqueue.clear".data).length ≤ L.length)
    (hp3 : pyStarts L "beeper.beep".data = false)
    (hq3 : ("beeper.beep".data).length ≤ L.length)
    (hp4 : pyStarts L "display.screen".data = false)
    (hq4 : ("display.screen".data).length ≤ L.length)
    (hp5 : pyStarts L "display.smu".data = false)
    (hq5 : ("display.smu".data).length ≤ L.length)
    (hcon : L.contains '=' = true)
    (hsp : splitFirst '=' L = some (lhsRaw, [' ']))
    (hst : pyStrip lhsRaw = lhsS)
    (hdot : splitFirst '.' lhsS = some (chan, attr))
    (hnil : (L ++ R) ≠ [])
    (hstripR : pyStrip (' ' :: R) = R)
    (hreset : pyEnds (L ++ R) "reset()".data = false) :
    processCmd (L ++ R) st =
      (match dictGet st.channels chan with
       | none => .error (.notImplemented ("Simulator cannot handle command: ".data ++ (L ++ R)))
       | some s =>
         if attr = "source.func".data then
           .ok { st with channels :=
                   dictSet st.channels chan ({ s with func := idxLast (pySplitAll '.' R) }) }
         else if attr = "source.autorangev".data then
           .ok { st with channels :=
                   dictSet st.channels chan ({ s with autorange := pyEnds R "AUTORANGE_ON".data }) }
         else if attr = "source.levelv".data then
           (match pyFloat? R with
            | some q =>
              .ok { st with channels :=
                      dictSet st.channels chan ({ s with level_v := q }) }
            | none => .error (.valueError R))
         else if attr = "source.limiti".data then
           (match pyFloat? R with
            | some q =>
              .ok { st with channels :=
                      dictSet st.channels chan ({ s with limit_i := q }) }
            | none => .error (.valueError R))
         else if attr = "source.output".data then
           .ok { st with channels :=
                   dictSet st.channels chan ({ s with output_on := pyEnds R "OUTPUT_ON".data }) }
         else if attr = "measure.func".data then
           .ok { st with channels :=
                   dictSet st.channels chan ({ s with measure_func := idxLast (pySplitAll '.' R) }) }
         else if attr = "measure.autorangev".data then
           .ok { st with channels :=
                   dictSet st.channels chan ({ s with measure_autorange := pyEnds R "AUTORANGE_ON".data }) }
         else .error (.notImplemented ("Simulator cannot handle command: ".data ++ (L ++ R)))) := by
  unfold processCmd
  rw [if_neg hnil]
  rw [if_neg (append_ne_concrete (show ("*RST".data).length < L.length from hlen))]
  rw [if_neg (by simp [hreset])]
  rw [if_neg (by simp [pyStarts_append_of_le _ hq1, hp1])]
  rw [if_neg (by simp [pyStarts_append_of_le _ hq2, hp2])]
  rw [if_neg (by simp [pyStarts_append_of_le _ hq3, hp3])]
  rw [if_neg (by simp [pyStarts_append_of_le _ hq4, hp4])]
  rw [if_neg (by simp [pyStarts_append_of_le _ hq5, hp5])]
  rw [if_pos (contains_append_left _ hcon)]
  rw [splitFirst_append_left, hsp]
  simp only [List.cons_append, List.nil_append, hstripR, hst, hdot]


lemma processCmd_set_levelv (ch : Channel) (q : ℚ) (st : SimState) :
    processCmd (ch.alias ++ ".source.levelv = ".data ++ qRenderChars q) st =
      match dictGet st.channels ch.alias with
      | none => .error (.notImplemented ("Simulator cannot handle command: ".data ++
          (ch.alias ++ ".source.levelv = ".data ++ qRenderChars q)))
      | some s =>
        .ok { st with channels := dictSet st.channels ch.alias ({ s with level_v := q }) } := by
  have hdig : ∀ c : Char, isDigitChar c = true → c ≠ ')' :=
    fun c hc => (digit_char_props hc).2.2.2.2.2.2.1
  cases ch
  · rw [show Channel.A.alias ++ ".source.levelv = ".data ++ qRenderChars q
        = "smua.source.levelv = ".data ++ qRenderChars q from
          congrArg (fun l => l ++ qRenderChars q) (by decide)]
    rw [@processCmd_assign "smua.source.levelv = ".data "smua.source.levelv ".data
      "smua.source.levelv".data "smua".data "source.levelv".data (qRenderChars q) st
      (by decide) (by decide) (by decide) (by decide) (by decide) (by decide) (by decide)
      (by decide) (by decide) (by decide) (by decide) (by decide) (by decide) (by decide)
      (by decide) (by simp [qRenderChars_ne_nil]) (pyStrip_space_qRenderChars q)
      (pyEnds_append_qRender_ne q rfl hdig)]
    simp only [eq_false (show ¬("source.levelv".data = "source.func".data) from by decide),
      eq_false (show ¬("source.levelv".data = "source.autorangev".data) from by decide),
      eq_self_iff_true, if_false, if_true, pyFloat?_qRenderChars]
    rfl
  · rw [show Channel.B.alias ++ ".source.levelv = ".data ++ qRenderChars q
        = "smub.source.levelv = ".data ++ qRenderChars q from
          congrArg (fun l => l ++ qRenderChars q) (by decide)]
    rw [@processCmd_assign "smub.source.levelv = ".data "smub.source.levelv ".data
      "smub.source.levelv".data "smub".data "source.levelv".data (qRenderChars q) st
      (by decide) (by decide) (by decide) (by decide) (by decide) (by decide) (by decide)
      (by decide) (by decide) (by decide) (by decide) (by decide) (by decide) (by decide)
      (by decide) (by simp [qRenderChars_ne_nil]) (pyStrip_space_qRenderChars q)
      (pyEnds_append_qRender_ne q rfl hdig)]
    simp only [eq_false (show ¬("source.levelv".data = "source.func".data) from by decide),
      eq_false (show ¬("source.levelv".data = "source.autorangev".data) from by decide),
      eq_self_iff_true, if_false, if_true, pyFloat?_qRenderChars]

    rfl


lemma processCmd_set_limiti (ch : Channel) (q : ℚ) (st : SimState) :
    processCmd (ch.alias ++ ".source.limiti = ".data ++ qRenderChars q) st =
      match dictGet st.channels ch.alias with
      | none => .error (.notImplemented ("Simulator cannot handle command: ".data ++
          (ch.alias ++ ".source.limiti = ".data ++ qRenderChars q)))
      | some s =>
        .ok { st with channels := dictSet st.channels ch.alias ({ s with limit_i := q }) } := by
  have hdig : ∀ c : Char, isDigitChar c = true → c ≠ ')' :=
    fun c hc => (digit_char_props hc).2.2.2.2.2.2.1
  cases ch
  · rw [show Channel.A.alias ++ ".source.limiti = ".data ++ qRenderChars q
        = "smua.source.limiti = ".data ++ qRenderChars q from
          congrArg (fun l => l ++ qRenderChars q) (by decide)]
    rw [@processCmd_assign "smua.source.limiti = ".data "smua.source.limiti ".data
      "smua.source.limiti".data "smua".data "source.limiti".data (qRenderChars q) st
      (by decide) (by decide) (by decide) (by decide) (by decide) (by decide) (by decide)
      (by decide) (by decide) (by decide) (by decide) (by decide) (by decide) (by decide)
      (by decide) (by simp [qRenderChars_ne_nil]) (pyStrip_space_qRenderChars q)
      (pyEnds_append_qRender_ne q rfl hdig)]
    simp only [eq_false (show ¬("source.limiti".data = "source.func".data) from by decide),
      eq_false (show ¬("source.limiti".data = "source.autorangev".data) from by decide),
      eq_false (show ¬("source.limiti".data = "source.levelv".data) from by decide),
      eq_self_iff_true, if_false, if_true, pyFloat?_qRenderChars]
    rfl
  · rw [show Channel.B.alias ++ ".source.limiti = ".data ++ qRenderChars q
        = "smub.source.limiti = ".data ++ qRenderChars q from
          congrArg (fun l => l ++ qRenderChars q) (by decide)]
    rw [@processCmd_assign "smub.source.limiti = ".data "smub.source.limiti ".data
      "smub.source.limiti".data "smub".data "source.limiti".data (qRenderChars q) st
      (by decide) (by decide) (by decide) (by decide) (by decide) (by decide) (by decide)
      (by decide) (by decide) (by decide) (by decide) (by decide) (by decide) (by decide)
      (by decide) (by simp [qRenderChars_ne_nil]) (pyStrip_space_qRenderChars q)
      (pyEnds_append_qRender_ne q rfl hdig)]
    simp only [eq_false (show ¬("source.limiti".data = "source.func".data) from by decide),
      eq_false (show ¬("source.limiti".data = "source.autorangev".data) from by decide),
      eq_false (show ¬("source.limiti".data = "source.levelv".data) from by decide),
      eq_self_iff_true, if_false, if_true, pyFloat?_qRenderChars]
    rfl

lemma processCmd_set_func (ch : Channel) (st : SimState) :
    processCmd (ch.alias ++ ".source.func = ".data ++ ch.alias ++ ".OUTPUT_DCVOLTS".data) st =
      match dictGet st.channels ch.alias with
      | none => .error (.notImplemented ("Simulator cannot handle command: ".data ++
          (ch.alias ++ ".source.func = ".data ++ ch.alias ++ ".OUTPUT_DCVOLTS".data)))
      | some s =>
        .ok { st with channels :=
                dictSet st.channels ch.alias ({ s with func := "OUTPUT_DCVOLTS".data }) } := by
  cases ch
  · rw [show Channel.A.alias ++ ".source.func = ".data ++ Channel.A.alias ++
          ".OUTPUT_DCVOLTS".data
        = "smua.source.func = ".data ++ "smua.OUTPUT_DCVOLTS".data from by decide]
    rw [@processCmd_assign "smua.source.func = ".data "smua.source.func ".data
      "smua.source.func".data "smua".data "source.func".data "smua.OUTPUT_DCVOLTS".data st
      (by decide) (by decide) (by decide) (by decide) (by decide) (by decide) (by decide)
      (by decide) (by decide) (by decide) (by decide) (by decide) (by decide) (by decide)
      (by decide) (by decide) (by decide) (by decide)]
    simp only [eq_self_iff_true, if_true,
      show idxLast (pySplitAll '.' "smua.OUTPUT_DCVOLTS".data) = "OUTPUT_DCVOLTS".data
        from by decide]
    rfl
  · rw [show Channel.B.alias ++ ".source.func = ".data ++ Channel.B.alias ++
          ".OUTPUT_DCVOLTS".data
        = "smub.source.func = ".data ++ "smub.OUTPUT_DCVOLTS".data from by decide]
    rw [@processCmd_assign "smub.source.func = ".data "smub.source.func ".data
      "smub.source.func".data "smub".data "source.func".data "smub.OUTPUT_DCVOLTS".data st
      (by decide) (by decide) (by decide) (by decide) (by decide) (by decide) (by decide)
      (by decide) (by decide) (by decide) (by decide) (by decide) (by decide) (by decide)
      (by decide) (by decide) (by decide) (by decide)]
    simp only [eq_self_iff_true, if_true,
      show idxLast (pySplitAll '.' "smub.OUTPUT_DCVOLTS".data) = "OUTPUT_DCVOLTS".data
        from by decide]
    rfl

lemma processCmd_set_autorange_on (ch : Channel) (st : SimState) :
    processCmd (ch.alias ++ ".source.autorangev = ".data ++ ch.alias ++ ".AUTORANGE_ON".data) st =
      match dictGet st.channels ch.alias with
      | none => .error (.notImplemented ("Simulator cannot handle command: ".data ++
          (ch.alias ++ ".source.autorangev = ".data ++ ch.alias ++ ".AUTORANGE_ON".data)))
      | some s =>
        .ok { st with channels :=
                dictSet st.channels ch.alias ({ s with autorange := true }) } := by
  cases ch
  · rw [show Channel.A.alias ++ ".source.autorangev = ".data ++ Channel.A.alias ++
          ".AUTORANGE_ON".data
        = "smua.source.autorangev = ".data ++ "smua.AUTORANGE_ON".data from by decide]
    rw [@processCmd_assign "smua.source.autorangev = ".data "smua.source.autorangev ".data
      "smua.source.autorangev".data "smua".data "source.autorangev".data
      "smua.AUTORANGE_ON".data st
      (by decide) (by decide) (by decide) (by decide) (by decide) (by decide) (by decide)
      (by decide) (by decide) (by decide) (by decide) (by decide) (by decide) (by decide)
      (by decide) (by decide) (by decide) (by decide)]
    simp only [eq_false (show ¬("source.autorangev".data = "source.func".data) from by decide),
      eq_self_iff_true, if_false, if_true,
      show pyEnds "smua.AUTORANGE_ON".data "AUTORANGE_ON".data = true from by decide]
    rfl
  · rw [show Channel.B.alias ++ ".source.autorangev = ".data ++ Channel.B.alias ++
          ".AUTORANGE_ON".data
        = "smub.source.autorangev = ".data ++ "smub.AUTORANGE_ON".data from by decide]
    rw [@processCmd_assign "smub.source.autorangev = ".data "smub.source.autorangev ".data
      "smub.source.autorangev".data "smub".data "source.autorangev".data
      "smub.AUTORANGE_ON".data st
      (by decide) (by decide) (by decide) (by decide) (by decide) (by decide) (by decide)
      (by decide) (by decide) (by decide) (by decide) (by decide) (by decide) (by decide)
      (by decide) (by decide) (by decide) (by decide)]
    simp only [eq_false (show ¬("source.autorangev".data = "source.func".data) from by decide),
      eq_self_iff_true, if_false, if_true,
      show pyEnds "smub.AUTORANGE_ON".data "AUTORANGE_ON".data = true from by decide]
    rfl

lemma processCmd_set_autorange_off (ch : Channel) (st : SimState) :
    processCmd (ch.alias ++ ".source.autorangev = ".data ++ ch.alias ++ ".AUTORANGE_OFF".data) st =
      match dictGet st.channels ch.alias with
      | none => .error (.notImplemented ("Simulator cannot handle command: ".data ++
          (ch.alias ++ ".source.autorangev = ".data ++ ch.alias ++ ".AUTORANGE_OFF".data)))
      | some s =>
        .ok { st with channels :=
                dictSet st.channels ch.alias ({ s with autorange := false }) } := by
  cases ch
  · rw [show Channel.A.alias ++ ".source.autorangev = ".data ++ Channel.A.alias ++
          ".AUTORANGE_OFF".data
        = "smua.source.autorangev = ".data ++ "smua.AUTORANGE_OFF".data from by decide]
    rw [@processCmd_assign "smua.source.autorangev = ".data "smua.source.autorangev ".data
      "smua.source.autorangev".data "smua".data "source.autorangev".data
      "smua.AUTORANGE_OFF".data st
      (by decide) (by decide) (by decide) (by decide) (by decide) (by decide) (by decide)
      (by decide) (by decide) (by decide) (by decide) (by decide) (by decide) (by decide)
      (by decide) (by decide) (by decide) (by decide)]
    simp only [eq_false (show ¬("source.autorangev".data = "source.func".data) from by decide),
      eq_self_iff_true, if_false, if_true,
      show pyEnds "smua.AUTORANGE_OFF".data "AUTORANGE_ON".data = false from by decide]
    rfl
  · rw [show Channel.B.alias ++ ".source.autorangev = ".data ++ Channel.B.alias ++
          ".AUTORANGE_OFF".data
        = "smub.source.autorangev = ".data ++ "smub.AUTORANGE_OFF".data from by decide]
    rw [@processCmd_assign "smub.source.autorangev = ".data "smub.source.autorangev ".data
      "smub.source.autorangev".data "smub".data "source.autorangev".data
      "smub.AUTORANGE_OFF".data st
      (by decide) (by decide) (by decide) (by decide) (by decide) (by decide) (by decide)
      (by decide) (by decide) (by decide) (by decide) (by decide) (by decide) (by decide)
      (by decide) (by decide) (by decide) (by decide)]
    simp only [eq_false (show ¬("source.autorangev".data = "source.func".data) from by decide),
      eq_self_iff_true, if_false, if_true,
      show pyEnds "smub.AUTORANGE_OFF".data "AUTORANGE_ON".data = false from by decide]
    rfl

lemma processCmd_chreset (ch : Channel) (st : SimState) :
    processCmd (ch.alias ++ ".reset()".data) st =
      .ok { st with channels := dictSet st.channels ch.alias ChannelState.default } := by
  cases ch
  · rw [show Channel.A.alias ++ ".reset()".data = "smua.reset()".data from by decide]
    unfold processCmd
    rw [if_neg (by decide), if_neg (by decide), if_pos (by decide)]
    simp only [show idx0 (pySplitAll '.' "smua.reset()".data) = "smua".data from by decide]
    rfl
  · rw [show Channel.B.alias ++ ".reset()".data = "smub.reset()".data from by decide]
    unfold processCmd
    rw [if_neg (by decide), if_neg (by decide), if_pos (by decide)]
    simp only [show idx0 (pySplitAll '.' "smub.reset()".data) = "smub".data from by decide]
    rfl

lemma processCmd_rst (st : SimState) :
    processCmd "*RST".data st =
      .ok { st with
            channels := st.channels.map (fun p => (p.1, ChannelState.default))
            beeper_enabled := false
            display_screen := "HOME".data
            last_beep := none
            error_queue := [] } := by
  unfold processCmd
  rw [if_neg (by decide), if_pos rfl]

lemma pyStrip_append_qRender {L : List Char} {c : Char} (hh : L.head? = some c)
    (hc : isSpaceChar c = false) (q : ℚ) :
    pyStrip (L ++ qRenderChars q) = L ++ qRenderChars q := by
  apply pyStrip_eq_self
  · intro d hd
    rw [List.head?_append, hh] at hd
    simp only [Option.or_some, Option.some.injEq] at hd
    subst hd
    exact hc
  · intro d hd
    rw [List.getLast?_append_of_ne_nil _ (qRenderChars_ne_nil q)] at hd
    exact (digit_char_props (qRenderChars_getLast hd)).1


lemma ctrlWrite_sim_ok {c : Ctrl} {st st' : SimState} (cmd : List Char)
    (hc : c.connected = true) (ho : st.is_open = true)
    (hp : processCmd (pyStrip cmd) st = .ok st') :
    ctrlWrite simTransport c st cmd = (.ok (), st', [.write cmd]) := by
  unfold ctrlWrite
  rw [if_pos hc, show simTransport.write = SimWrite from rfl]
  unfold SimWrite
  rw [if_pos ho, hp]

lemma ctrlWrite_sim_error {c : Ctrl} {st : SimState} {e : Err} (cmd : List Char)
    (hc : c.connected = true) (ho : st.is_open = true)
    (hp : processCmd (pyStrip cmd) st = .error e) :
    ctrlWrite simTransport c st cmd = (.error e, st, [.write cmd]) := by
  unfold ctrlWrite
  rw [if_pos hc, show simTransport.write = SimWrite from rfl]
  unfold SimWrite
  rw [if_pos ho, hp]

lemma pyStrip_levelv_cmd (ch : Channel) (q : ℚ) :
    pyStrip (ch.alias ++ ".source.levelv = ".data ++ qRenderChars q)
      = ch.alias ++ ".source.levelv = ".data ++ qRenderChars q := by
  cases ch
  · rw [show Channel.A.alias ++ ".source.levelv = ".data ++ qRenderChars q
        = "smua.source.levelv = ".data ++ qRenderChars q from
          congrArg (fun l => l ++ qRenderChars q) (by decide)]
    exact @pyStrip_append_qRender "smua.source.levelv = ".data 's' rfl (by decide) q
  · rw [show Channel.B.alias ++ ".source.levelv = ".data ++ qRenderChars q
        = "smub.source.levelv = ".data ++ qRenderChars q from
          congrArg (fun l => l ++ qRenderChars q) (by decide)]
    exact @pyStrip_append_qRender "smub.source.levelv = ".data 's' rfl (by decide) q

lemma pyStrip_limiti_cmd (ch : Channel) (q : ℚ) :
    pyStrip (ch.alias ++ ".source.limiti = ".data ++ qRenderChars q)
      = ch.alias ++ ".source.limiti = ".data ++ qRenderChars q := by
  cases ch
  · rw [show Channel.A.alias ++ ".source.limiti = ".data ++ qRenderChars q
        = "smua.source.limiti = ".data ++ qRenderChars q from
          congrArg (fun l => l ++ qRenderChars q) (by decide)]
    exact @pyStrip_append_qRender "smua.source.limiti = ".data 's' rfl (by decide) q
  · rw [show Channel.B.alias ++ ".source.limiti = ".data ++ qRenderChars q
        = "smub.source.limiti = ".data ++ qRenderChars q from
          congrArg (fun l => l ++ qRenderChars q) (by decide)]
    exact @pyStrip_append_qRender "smub.source.limiti = ".data 's' rfl (by decide) q

lemma pyStrip_func_cmd (ch : Channel) :
    pyStrip (ch.alias ++ ".source.func = ".data ++ ch.alias ++ ".OUTPUT_DCVOLTS".data)
      = ch.alias ++ ".source.func = ".data ++ ch.alias ++ ".OUTPUT_DCVOLTS".data := by
  cases ch <;> decide

lemma pyStrip_autorange_on_cmd (ch : Channel) :
    pyStrip (ch.alias ++ ".source.autorangev = ".data ++ ch.alias ++ ".AUTORANGE_ON".data)
      = ch.alias ++ ".source.autorangev = ".data ++ ch.alias ++ ".AUTORANGE_ON".data := by
  cases ch <;> decide

lemma pyStrip_autorange_off_cmd (ch : Channel) :
    pyStrip (ch.alias ++ ".source.autorangev = ".data ++ ch.alias ++ ".AUTORANGE_OFF".data)
      = ch.alias ++ ".source.autorangev = ".data ++ ch.alias ++ ".AUTORANGE_OFF".data := by
  cases ch <;> decide

lemma batchWrite_nil {τ : Type} (T : TransportModel τ) (c : Ctrl) (st : τ) :
    batchWrite T c st [] = (.ok (), st, []) := rfl

lemma batchWrite_cons {τ : Type} (T : TransportModel τ) (c : Ctrl) (st : τ)
    (cmd : List Char) (rest : List (List Char)) :
    batchWrite T c st (cmd :: rest) =
      rbind (ctrlWrite T c st cmd) (fun _ st' => batchWrite T c st' rest) := rfl

lemma rbind_ok {τ α β : Type} (a : α) (st : τ) (tr : List Op) (f : α → τ → Res τ β)
    {e : Except Err β} {st' : τ} {tr' : List Op}
    (hf : f a st = (e, st', tr')) :
    rbind ((.ok a, st, tr) : Res τ α) f = (e, st', tr ++ tr') := by
  have h0 : rbind ((.ok a, st, tr) : Res τ α) f =
      (match f a st with | (e, st', tr') => (e, st', tr ++ tr')) := rfl
  rw [h0, hf]

lemma rbind_error {τ α β : Type} (e : Err) (st : τ) (tr : List Op) (f : α → τ → Res τ β) :
    rbind ((.error e, st, tr) : Res τ α) f = (.error e, st, tr) := rfl

/-- **C1**: for every `VoltageConfig`, `configure_voltage_source` on a
connected controller over the simulated transport issues exactly four
writes, in the order: source function to DC-volts, autorange per the
config, commanded level, compliance current limit; afterwards the active
channel's emulator state has `func = OUTPUT_DCVOLTS`, `autorange`,
`level_v` and `limit_i` exactly as configured. -/
theorem C1_configure_voltage_source (cfg : VoltageConfig) (c : Ctrl) (st : SimState) (cs : ChannelState)
    (hc : c.connected = true) (ho : st.is_open = true)
    (hch : dictGet st.channels c.channel.alias = some cs) :
    ∃ st' : SimState,
      configure_voltage_source simTransport c st cfg =
        (.ok (), st',
          [.write (c.channel.alias ++ ".source.func = ".data ++ c.channel.alias ++ ".OUTPUT_DCVOLTS".data),
           .write (c.channel.alias ++ ".source.autorangev = ".data ++ c.channel.alias ++
             (if cfg.autorange then ".AUTORANGE_ON".data else ".AUTORANGE_OFF".data)),
           .write (c.channel.alias ++ ".source.levelv = ".data ++ qRenderChars cfg.level_v),
           .write (c.channel.alias ++ ".source.limiti = ".data ++
             qRenderChars cfg.current_limit_a)]) ∧
      dictGet st'.channels c.channel.alias =
        some { cs with
               func := "OUTPUT_DCVOLTS".data
               autorange := cfg.autorange
               level_v := cfg.level_v
               limit_i := cfg.current_limit_a } := by
  obtain ⟨lv, li, ar⟩ := cfg
  cases ar
  case false =>
    have hrun : configure_voltage_source simTransport c st ⟨lv, li, false⟩ =
        batchWrite simTransport c st
          [c.channel.alias ++ ".source.func = ".data ++ c.channel.alias ++ ".OUTPUT_DCVOLTS".data,
           c.channel.alias ++ ".source.autorangev = ".data ++ c.channel.alias ++ ".AUTORANGE_OFF".data,
           c.channel.alias ++ ".source.levelv = ".data ++ qRenderChars lv,
           c.channel.alias ++ ".source.limiti = ".data ++ qRenderChars li] := rfl
    have e1 : processCmd (pyStrip (c.channel.alias ++ ".source.func = ".data ++ c.channel.alias ++ ".OUTPUT_DCVOLTS".data)) st =
        .ok ({ st with channels := dictSet st.channels c.channel.alias ({ cs with func := "OUTPUT_DCVOLTS".data }) }) := by
      rw [pyStrip_func_cmd, processCmd_set_func, hch]
    have hch1 : dictGet ({ st with channels := dictSet st.channels c.channel.alias ({ cs with func := "OUTPUT_DCVOLTS".data }) } : SimState).channels c.channel.alias = some ({ cs with func := "OUTPUT_DCVOLTS".data }) :=
      dictGet_dictSet_self _ _ _
    have ho1 : ({ st with channels := dictSet st.channels c.channel.alias ({ cs with func := "OUTPUT_DCVOLTS".data }) } : SimState).is_open = true := ho
    have e2 : processCmd (pyStrip (c.channel.alias ++ ".source.autorangev = ".data ++ c.channel.alias ++ ".AUTORANGE_OFF".data)) ({ st with channels := dictSet st.channels c.channel.alias ({ cs with func := "OUTPUT_DCVOLTS".data }) } : SimState) =
        .ok ({ st with channels := dictSet (dictSet st.channels c.channel.alias ({ cs with func := "OUTPUT_DCVOLTS".data })) c.channel.alias ({ cs with func := "OUTPUT_DCVOLTS".data, autorange := false }) }) := by
      rw [pyStrip_autorange_off_cmd, processCmd_set_autorange_off, hch1]
    have hch2 : dictGet ({ st with channels := dictSet (dictSet st.channels c.channel.alias ({ cs with func := "OUTPUT_DCVOLTS".data })) c.channel.alias ({ cs with func := "OUTPUT_DCVOLTS".data, autorange := false }) } : SimState).channels c.channel.alias = some ({ cs with func := "OUTPUT_DCVOLTS".data, autorange := false }) :=
      dictGet_dictSet_self _ _ _
    have ho2 : ({ st with channels := dictSet (dictSet st.channels c.channel.alias ({ cs with func := "OUTPUT_DCVOLTS".data })) c.channel.alias ({ cs with func := "OUTPUT_DCVOLTS".data, autorange := false }) } : SimState).is_open = true := ho
    have e3 : processCmd (pyStrip (c.channel.alias ++ ".source.levelv = ".data ++ qRenderChars lv)) ({ st with channels := dictSet (dictSet st.channels c.channel.alias ({ cs with func := "OUTPUT_DCVOLTS".data })) c.channel.alias ({ cs with func := "OUTPUT_DCVOLTS".data, autorange := false }) } : SimState) =
        .ok ({ st with channels := dictSet (dictSet (dictSet st.channels c.channel.alias ({ cs with func := "OUTPUT_DCVOLTS".data })) c.channel.alias ({ cs with func := "OUTPUT_DCVOLTS".data, autorange := false })) c.channel.alias ({ cs with func := "OUTPUT_DCVOLTS".data, autorange := false, level_v := lv }) }) := by
      rw [pyStrip_levelv_cmd, processCmd_set_levelv, hch2]
    have hch3 : dictGet ({ st with channels := dictSet (dictSet (dictSet st.channels c.channel.alias ({ cs with func := "OUTPUT_DCVOLTS".data })) c.channel.alias ({ cs with func := "OUTPUT_DCVOLTS".data, autorange := false })) c.channel.alias ({ cs with func := "OUTPUT_DCVOLTS".data, autorange := false, level_v := lv }) } : SimState).channels c.channel.alias = some ({ cs with func := "OUTPUT_DCVOLTS".data, autorange := false, level_v := lv }) :=
      dictGet_dictSet_self _ _ _
    have ho3 : ({ st with channels := dictSet (dictSet (dictSet st.channels c.channel.alias ({ cs with func := "OUTPUT_DCVOLTS".data })) c.channel.alias ({ cs with func := "OUTPUT_DCVOLTS".data, autorange := false })) c.channel.alias ({ cs with func := "OUTPUT_DCVOLTS".data, autorange := false, level_v := lv }) } : SimState).is_open = true := ho
    have e4 : processCmd (pyStrip (c.channel.alias ++ ".source.limiti = ".data ++ qRenderChars li)) ({ st with channels := dictSet (dictSet (dictSet st.channels c.channel.alias ({ cs with func := "OUTPUT_DCVOLTS".data })) c.channel.alias ({ cs with func := "OUTPUT_DCVOLTS".data, autorange := false })) c.channel.alias ({ cs with func := "OUTPUT_DCVOLTS".data, autorange := false, level_v := lv }) } : SimState) =
        .ok ({ st with channels := dictSet (dictSet (dictSet (dictSet st.channels c.channel.alias ({ cs with func := "OUTPUT_DCVOLTS".data })) c.channel.alias ({ cs with func := "OUTPUT_DCVOLTS".data, autorange := false })) c.channel.alias ({ cs with func := "OUTPUT_DCVOLTS".data, autorange := false, level_v := lv })) c.channel.alias ({ cs with func := "OUTPUT_DCVOLTS".data, autorange := false, level_v := lv, limit_i := li }) }) := by
      rw [pyStrip_limiti_cmd, processCmd_set_limiti, hch3]
    have b4 : batchWrite simTransport c ({ st with channels := dictSet (dictSet (dictSet st.channels c.channel.alias ({ cs with func := "OUTPUT_DCVOLTS".data })) c.channel.alias ({ cs with func := "OUTPUT_DCVOLTS".data, autorange := false })) c.channel.alias ({ cs with func := "OUTPUT_DCVOLTS".data, autorange := false, level_v := lv }) } : SimState)
        [c.channel.alias ++ ".source.limiti = ".data ++ qRenderChars li] = (.ok (), ({ st with channels := dictSet (dictSet (dictSet (dictSet st.channels c.channel.alias ({ cs with func := "OUTPUT_DCVOLTS".data })) c.channel.alias ({ cs with func := "OUTPUT_DCVOLTS".data, autorange := false })) c.channel.alias ({ cs with func := "OUTPUT_DCVOLTS".data, autorange := false, level_v := lv })) c.channel.alias ({ cs with func := "OUTPUT_DCVOLTS".data, autorange := false, level_v := lv, limit_i := li }) } : SimState), [.write (c.channel.alias ++ ".source.limiti = ".data ++ qRenderChars li)]) := by
      rw [batchWrite_cons, ctrlWrite_sim_ok _ hc ho3 e4]
      exact rbind_ok _ _ _ _ (batchWrite_nil simTransport c _)
    have b3 : batchWrite simTransport c ({ st with channels := dictSet (dictSet st.channels c.channel.alias ({ cs with func := "OUTPUT_DCVOLTS".data })) c.channel.alias ({ cs with func := "OUTPUT_DCVOLTS".data, autorange := false }) } : SimState)
        [c.channel.alias ++ ".source.levelv = ".data ++ qRenderChars lv, c.channel.alias ++ ".source.limiti = ".data ++ qRenderChars li] =
        (.ok (), ({ st with channels := dictSet (dictSet (dictSet (dictSet st.channels c.channel.alias ({ cs with func := "OUTPUT_DCVOLTS".data })) c.channel.alias ({ cs with func := "OUTPUT_DCVOLTS".data, autorange := false })) c.channel.alias ({ cs with func := "OUTPUT_DCVOLTS".data, autorange := false, level_v := lv })) c.channel.alias ({ cs with func := "OUTPUT_DCVOLTS".data, autorange := false, level_v := lv, limit_i := li }) } : SimState), [.write (c.channel.alias ++ ".source.levelv = ".data ++ qRenderChars lv), .write (c.channel.alias ++ ".source.limiti = ".data ++ qRenderChars li)]) := by
      rw [batchWrite_cons, ctrlWrite_sim_ok _ hc ho2 e3]
      exact rbind_ok _ _ _ _ b4
    have b2 : batchWrite simTransport c ({ st with channels := dictSet st.channels c.channel.alias ({ cs with func := "OUTPUT_DCVOLTS".data }) } : SimState)
        [c.channel.alias ++ ".source.autorangev = ".data ++ c.channel.alias ++ ".AUTORANGE_OFF".data, c.channel.alias ++ ".source.levelv = ".data ++ qRenderChars lv, c.channel.alias ++ ".source.limiti = ".data ++ qRenderChars li] =
        (.ok (), ({ st with channels := dictSet (dictSet (dictSet (dictSet st.channels c.channel.alias ({ cs with func := "OUTPUT_DCVOLTS".data })) c.channel.alias ({ cs with func := "OUTPUT_DCVOLTS".data, autorange := false })) c.channel.alias ({ cs with func := "OUTPUT_DCVOLTS".data, autorange := false, level_v := lv })) c.channel.alias ({ cs with func := "OUTPUT_DCVOLTS".data, autorange := false, level_v := lv, limit_i := li }) } : SimState), [.write (c.channel.alias ++ ".source.autorangev = ".data ++ c.channel.alias ++ ".AUTORANGE_OFF".data), .write (c.channel.alias ++ ".source.levelv = ".data ++ qRenderChars lv), .write (c.channel.alias ++ ".source.limiti = ".data ++ qRenderChars li)]) := by
      rw [batchWrite_cons, ctrlWrite_sim_ok _ hc ho1 e2]
      exact rbind_ok _ _ _ _ b3
    have b1 : batchWrite simTransport c st
        [c.channel.alias ++ ".source.func = ".data ++ c.channel.alias ++ ".OUTPUT_DCVOLTS".data, c.channel.alias ++ ".source.autorangev = ".data ++ c.channel.alias ++ ".AUTORANGE_OFF".data, c.channel.alias ++ ".source.levelv = ".data ++ qRenderChars lv, c.channel.alias ++ ".source.limiti = ".data ++ qRenderChars li] =
        (.ok (), ({ st with channels := dictSet (dictSet (dictSet (dictSet st.channels c.channel.alias ({ cs with func := "OUTPUT_DCVOLTS".data })) c.channel.alias ({ cs with func := "OUTPUT_DCVOLTS".data, autorange := false })) c.channel.alias ({ cs with func := "OUTPUT_DCVOLTS".data, autorange := false, level_v := lv })) c.channel.alias ({ cs with func := "OUTPUT_DCVOLTS".data, autorange := false, level_v := lv, limit_i := li }) } : SimState),
          [.write (c.channel.alias ++ ".source.func = ".data ++ c.channel.alias ++ ".OUTPUT_DCVOLTS".data), .write (c.channel.alias ++ ".source.autorangev = ".data ++ c.channel.alias ++ ".AUTORANGE_OFF".data), .write (c.channel.alias ++ ".source.levelv = ".data ++ qRenderChars lv), .write (c.channel.alias ++ ".source.limiti = ".data ++ qRenderChars li)]) := by
      rw [batchWrite_cons, ctrlWrite_sim_ok _ hc ho e1]
      exact rbind_ok _ _ _ _ b2
    exact ⟨_, hrun.trans b1, dictGet_dictSet_self _ _ _⟩
  case true =>
    have hrun : configure_voltage_source simTransport c st ⟨lv, li, true⟩ =
        batchWrite simTransport c st
          [c.channel.alias ++ ".source.func = ".data ++ c.channel.alias ++ ".OUTPUT_DCVOLTS".data,
           c.channel.alias ++ ".source.autorangev = ".data ++ c.channel.alias ++ ".AUTORANGE_ON".data,
           c.channel.alias ++ ".source.levelv = ".data ++ qRenderChars lv,
           c.channel.alias ++ ".source.limiti = ".data ++ qRenderChars li] := rfl
    have e1 : processCmd (pyStrip (c.channel.alias ++ ".source.func = ".data ++ c.channel.alias ++ ".OUTPUT_DCVOLTS".data)) st =
        .ok ({ st with channels := dictSet st.channels c.channel.alias ({ cs with func := "OUTPUT_DCVOLTS".data }) }) := by
      rw [pyStrip_func_cmd, processCmd_set_func, hch]
    have hch1 : dictGet ({ st with channels := dictSet st.channels c.channel.alias ({ cs with func := "OUTPUT_DCVOLTS".data }) } : SimState).channels c.channel.alias = some ({ cs with func := "OUTPUT_DCVOLTS".data }) :=
      dictGet_dictSet_self _ _ _
    have ho1 : ({ st with channels := dictSet st.channels c.channel.alias ({ cs with func := "OUTPUT_DCVOLTS".data }) } : SimState).is_open = true := ho
    have e2 : processCmd (pyStrip (c.channel.alias ++ ".source.autorangev = ".data ++ c.channel.alias ++ ".AUTORANGE_ON".data)) ({ st with channels := dictSet st.channels c.channel.alias ({ cs with func := "OUTPUT_DCVOLTS".data }) } : SimState) =
        .ok ({ st with channels := dictSet (dictSet st.channels c.channel.alias ({ cs with func := "OUTPUT_DCVOLTS".data })) c.channel.alias ({ cs with func := "OUTPUT_DCVOLTS".data, autorange := true }) }) := by
      rw [pyStrip_autorange_on_cmd, processCmd_set_autorange_on, hch1]
    have hch2 : dictGet ({ st with channels := dictSet (dictSet st.channels c.channel.alias ({ cs with func := "OUTPUT_DCVOLTS".data })) c.channel.alias ({ cs with func := "OUTPUT_DCVOLTS".data, autorange := true }) } : SimState).channels c.channel.alias = some ({ cs with func := "OUTPUT_DCVOLTS".data, autorange := true }) :=
      dictGet_dictSet_self _ _ _
    have ho2 : ({ st with channels := dictSet (dictSet st.channels c.channel.alias ({ cs with func := "OUTPUT_DCVOLTS".data })) c.channel.alias ({ cs with func := "OUTPUT_DCVOLTS".data, autorange := true }) } : SimState).is_open = true := ho
    have e3 : processCmd (pyStrip (c.channel.alias ++ ".source.levelv = ".data ++ qRenderChars lv)) ({ st with channels := dictSet (dictSet st.channels c.channel.alias ({ cs with func := "OUTPUT_DCVOLTS".data })) c.channel.alias ({ cs with func := "OUTPUT_DCVOLTS".data, autorange := true }) } : SimState) =
        .ok ({ st with channels := dictSet (dictSet (dictSet st.channels c.channel.alias ({ cs with func := "OUTPUT_DCVOLTS".data })) c.channel.alias ({ cs with func := "OUTPUT_DCVOLTS".data, autorange := true })) c.channel.alias ({ cs with func := "OUTPUT_DCVOLTS".data, autorange := true, level_v := lv }) }) := by
      rw [pyStrip_levelv_cmd, processCmd_set_levelv, hch2]
    have hch3 : dictGet ({ st with channels := dictSet (dictSet (dictSet st.channels c.channel.alias ({ cs with func := "OUTPUT_DCVOLTS".data })) c.channel.alias ({ cs with func := "OUTPUT_DCVOLTS".data, autorange := true })) c.channel.alias ({ cs with func := "OUTPUT_DCVOLTS".data, autorange := true, level_v := lv }) } : SimState).channels c.channel.alias = some ({ cs with func := "OUTPUT_DCVOLTS".data, autorange := true, level_v := lv }) :=
      dictGet_dictSet_self _ _ _
    have ho3 : ({ st with channels := dictSet (dictSet (dictSet st.channels c.channel.alias ({ cs with func := "OUTPUT_DCVOLTS".data })) c.channel.alias ({ cs with func := "OUTPUT_DCVOLTS".data, autorange := true })) c.channel.alias ({ cs with func := "OUTPUT_DCVOLTS".data, autorange := true, level_v := lv }) } : SimState).is_open = true := ho
    have e4 : processCmd (pyStrip (c.channel.alias ++ ".source.limiti = ".data ++ qRenderChars li)) ({ st with channels := dictSet (dictSet (dictSet st.channels c.channel.alias ({ cs with func := "OUTPUT_DCVOLTS".data })) c.channel.alias ({ cs with func := "OUTPUT_DCVOLTS".data, autorange := true })) c.channel.alias ({ cs with func := "OUTPUT_DCVOLTS".data, autorange := true, level_v := lv }) } : SimState) =
        .ok ({ st with channels := dictSet (dictSet (dictSet (dictSet st.channels c.channel.alias ({ cs with func := "OUTPUT_DCVOLTS".data })) c.channel.alias ({ cs with func := "OUTPUT_DCVOLTS".data, autorange := true })) c.channel.alias ({ cs with func := "OUTPUT_DCVOLTS".data, autorange := true, level_v := lv })) c.channel.alias ({ cs with func := "OUTPUT_DCVOLTS".data, autorange := true, level_v := lv, limit_i := li }) }) := by
      rw [pyStrip_limiti_cmd, processCmd_set_limiti, hch3]
    have b4 : batchWrite simTransport c ({ st with channels := dictSet (dictSet (dictSet st.channels c.channel.alias ({ cs with func := "OUTPUT_DCVOLTS".data })) c.channel.alias ({ cs with func := "OUTPUT_DCVOLTS".data, autorange := true })) c.channel.alias ({ cs with func := "OUTPUT_DCVOLTS".data, autorange := true, level_v := lv }) } : SimState)
        [c.channel.alias ++ ".source.limiti = ".data ++ qRenderChars li] = (.ok (), ({ st with channels := dictSet (dictSet (dictSet (dictSet st.channels c.channel.alias ({ cs with func := "OUTPUT_DCVOLTS".data })) c.channel.alias ({ cs with func := "OUTPUT_DCVOLTS".data, autorange := true })) c.channel.alias ({ cs with func := "OUTPUT_DCVOLTS".data, autorange := true, level_v := lv })) c.channel.alias ({ cs with func := "OUTPUT_DCVOLTS".data, autorange := true, level_v := lv, limit_i := li }) } : SimState), [.write (c.channel.alias ++ ".source.limiti = ".data ++ qRenderChars li)]) := by
      rw [batchWrite_cons, ctrlWrite_sim_ok _ hc ho3 e4]
      exact rbind_ok _ _ _ _ (batchWrite_nil simTransport c _)
    have b3 : batchWrite simTransport c ({ st with channels := dictSet (dictSet st.channels c.channel.alias ({ cs with func := "OUTPUT_DCVOLTS".data })) c.channel.alias ({ cs with func := "OUTPUT_DCVOLTS".data, autorange := true }) } : SimState)
        [c.channel.alias ++ ".source.levelv = ".data ++ qRenderChars lv, c.channel.alias ++ ".source.limiti = ".data ++ qRenderChars li] =
        (.ok (), ({ st with channels := dictSet (dictSet (dictSet (dictSet st.channels c.channel.alias ({ cs with func := "OUTPUT_DCVOLTS".data })) c.channel.alias ({ cs with func := "OUTPUT_DCVOLTS".data, autorange := true })) c.channel.alias ({ cs with func := "OUTPUT_DCVOLTS".data, autorange := true, level_v := lv })) c.channel.alias ({ cs with func := "OUTPUT_DCVOLTS".data, autorange := true, level_v := lv, limit_i := li }) } : SimState), [.write (c.channel.alias ++ ".source.levelv = ".data ++ qRenderChars lv), .write (c.channel.alias ++ ".source.limiti = ".data ++ qRenderChars li)]) := by
      rw [batchWrite_cons, ctrlWrite_sim_ok _ hc ho2 e3]
      exact rbind_ok _ _ _ _ b4
    have b2 : batchWrite simTransport c ({ st with channels := dictSet st.channels c.channel.alias ({ cs with func := "OUTPUT_DCVOLTS".data }) } : SimState)
        [c.channel.alias ++ ".source.autorangev = ".data ++ c.channel.alias ++ ".AUTORANGE_ON".data, c.channel.alias ++ ".source.levelv = ".data ++ qRenderChars lv, c.channel.alias ++ ".source.limiti = ".data ++ qRenderChars li] =
        (.ok (), ({ st with channels := dictSet (dictSet (dictSet (dictSet st.channels c.channel.alias ({ cs with func := "OUTPUT_DCVOLTS".data })) c.channel.alias ({ cs with func := "OUTPUT_DCVOLTS".data, autorange := true })) c.channel.alias ({ cs with func := "OUTPUT_DCVOLTS".data, autorange := true, level_v := lv })) c.channel.alias ({ cs with func := "OUTPUT_DCVOLTS".data, autorange := true, level_v := lv, limit_i := li }) } : SimState), [.write (c.channel.alias ++ ".source.autorangev = ".data ++ c.channel.alias ++ ".AUTORANGE_ON".data), .write (c.channel.alias ++ ".source.levelv = ".data ++ qRenderChars lv), .write (c.channel.alias ++ ".source.limiti = ".data ++ qRenderChars li)]) := by
      rw [batchWrite_cons, ctrlWrite_sim_ok _ hc ho1 e2]
      exact rbind_ok _ _ _ _ b3
    have b1 : batchWrite simTransport c st
        [c.channel.alias ++ ".source.func = ".data ++ c.channel.alias ++ ".OUTPUT_DCVOLTS".data, c.channel.alias ++ ".source.autorangev = ".data ++ c.channel.alias ++ ".AUTORANGE_ON".data, c.channel.alias ++ ".source.levelv = ".data ++ qRenderChars lv, c.channel.alias ++ ".source.limiti = ".data ++ qRenderChars li] =
        (.ok (), ({ st with channels := dictSet (dictSet (dictSet (dictSet st.channels c.channel.alias ({ cs with func := "OUTPUT_DCVOLTS".data })) c.channel.alias ({ cs with func := "OUTPUT_DCVOLTS".data, autorange := true })) c.channel.alias ({ cs with func := "OUTPUT_DCVOLTS".data, autorange := true, level_v := lv })) c.channel.alias ({ cs with func := "OUTPUT_DCVOLTS".data, autorange := true, level_v := lv, limit_i := li }) } : SimState),
          [.write (c.channel.alias ++ ".source.func = ".data ++ c.channel.alias ++ ".OUTPUT_DCVOLTS".data), .write (c.channel.alias ++ ".source.autorangev = ".data ++ c.channel.alias ++ ".AUTORANGE_ON".data), .write (c.channel.alias ++ ".source.levelv = ".data ++ qRenderChars lv), .write (c.channel.alias ++ ".source.limiti = ".data ++ qRenderChars li)]) := by
      rw [batchWrite_cons, ctrlWrite_sim_ok _ hc ho e1]
      exact rbind_ok _ _ _ _ b2
    exact ⟨_, hrun.trans b1, dictGet_dictSet_self _ _ _⟩

end Keithley


namespace Keithley

lemma tQuery_ok {τ : Type} {T : TransportModel τ} {st st' : τ} {cmd r : List Char}
    (hq : T.query st cmd = .ok (r, st')) :
    tQuery T st cmd = (.ok r, st', [.query cmd]) := by
  unfold tQuery
  rw [hq]

lemma tQuery_error {τ : Type} {T : TransportModel τ} {st : τ} {cmd : List Char} {e : Err}
    (hq : T.query st cmd = .error e) :
    tQuery T st cmd = (.error e, st, [.query cmd]) := by
  unfold tQuery
  rw [hq]

lemma simTransport_query : simTransport.query = SimQuery := rfl

lemma tQuery_sim_ok {st st' : SimState} {cmd r : List Char}
    (hq : SimQuery st cmd = .ok (r, st')) :
    tQuery simTransport st cmd = (.ok r, st', [.query cmd]) := by
  unfold tQuery
  rw [simTransport_query, hq]

lemma tQuery_sim_error {st : SimState} {cmd : List Char} {e : Err}
    (hq : SimQuery st cmd = .error e) :
    tQuery simTransport st cmd = (.error e, st, [.query cmd]) := by
  unfold tQuery
  rw [simTransport_query, hq]

lemma SimQuery_idn {st : SimState} (ho : st.is_open = true) :
    SimQuery st "*IDN?".data = .ok (st.identity, st) := by
  unfold SimQuery
  rw [ho]
  rfl

lemma SimQuery_count {st : SimState} (ho : st.is_open = true) :
    SimQuery st "print(errorqueue.count)".data =
      .ok (digitsChars st.error_queue.length, st) := by
  unfold SimQuery
  rw [ho]
  rfl

lemma SimQuery_levelq {st : SimState} (c : Ctrl) (ho : st.is_open = true) :
    SimQuery st (levelQuery c) =
      .error (.notImplemented ("Simulator cannot handle expression: ".data ++
        c.channel.alias ++ ".source.levelv".data)) := by
  rcases c with ⟨ch, conn⟩
  cases ch <;>
  · unfold SimQuery
    rw [ho]
    rfl

lemma SimQuery_drainScript {st : SimState} {e : ErrorTuple} {rest : List ErrorTuple}
    (ho : st.is_open = true) (hq : st.error_queue = e :: rest) :
    SimQuery st drainScript = .ok (entryFormat e, { st with error_queue := rest }) := by
  unfold SimQuery
  rw [ho, hq]
  rfl

lemma SimQuery_drainScript_nil {st : SimState}
    (ho : st.is_open = true) (hq : st.error_queue = []) :
    SimQuery st drainScript = .ok ([], st) := by
  unfold SimQuery
  rw [ho, hq]
  rfl

end Keithley


namespace Keithley


/-- **C7 counterexample**: the command `xyz = reset()` is outside the
modeled vocabulary, yet the emulator silently accepts it (it even creates
a bogus channel entry named by the whole command). -/
theorem C7_counterexample :
    specWriteVocab "xyz = reset()".data = false ∧
    SimWrite { SimState.init with is_open := true } "xyz = reset()".data =
      .ok { SimState.init with
            is_open := true
            channels := SimState.init.channels ++ [("xyz = reset()".data, ChannelState.default)] } := by
  constructor
  · decide
  · decide

/-- **C7 (amended)**: every non-empty command matching none of the
emulator's dispatch guards fails with the UnsupportedCommand error naming
the offending text. -/
theorem C7_unsupported_command (cmd : List Char) (st : SimState)
    (ho : st.is_open = true)
    (h0 : pyStrip cmd ≠ []) (h1 : pyStrip cmd ≠ "*RST".data)
    (h2 : pyEnds (pyStrip cmd) "reset()".data = false)
    (h3 : pyStarts (pyStrip cmd) "beeper.enable".data = false)
    (h4 : pyStarts (pyStrip cmd) "errorqueue.clear".data = false)
    (h5 : pyStarts (pyStrip cmd) "beeper.beep".data = false)
    (h6 : pyStarts (pyStrip cmd) "display.screen".data = false)
    (h7 : pyStarts (pyStrip cmd) "display.smu".data = false)
    (h8 : '=' ∉ pyStrip cmd) :
    SimWrite st cmd =
      .error (.notImplemented ("Simulator cannot handle command: ".data ++ pyStrip cmd)) := by
  unfold SimWrite
  rw [ho, if_pos rfl]
  unfold processCmd
  rw [if_neg h0, if_neg h1, if_neg (by simp [h2]), if_neg (by simp [h3]),
    if_neg (by simp [h4]), if_neg (by simp [h5]), if_neg (by simp [h6]),
    if_neg (by simp [h7]), if_neg (by simp [h8])]

/-- **C5 counterexample**: with the transport open but the controller's
connected flag false, `identify()` succeeds and touches the transport,
instead of failing with a NotConnected error. -/
theorem C5_counterexample :
    ({ channel := Channel.A, connected := false } : Ctrl).connected = false ∧
    identify simTransport { channel := Channel.A, connected := false }
        { SimState.init with is_open := true } =
      (.ok SimState.init.identity, { SimState.init with is_open := true },
        [.query "*IDN?".data]) := by
  constructor
  · rfl
  · have h : SimQuery { SimState.init with is_open := true } "*IDN?".data =
        .ok (SimState.init.identity, { SimState.init with is_open := true }) :=
      SimQuery_idn rfl
    exact tQuery_sim_ok h

/-- **C5 (amended)**: `identify` forwards the identification query without
any connected-flag check and returns the transport's raw response; the
guarded `_write` path used by mutating operations does fail fast with the
NotConnected error, before any transport traffic. -/
theorem C5_identify_no_guard :
    (∀ (c : Ctrl) (st : SimState), st.is_open = true →
      identify simTransport c st = (.ok st.identity, st, [.query "*IDN?".data])) ∧
    (∀ (c : Ctrl) (st : SimState), st.is_open = false →
      identify simTransport c st =
        (.error (.runtime "Transport is not open".data), st, [.query "*IDN?".data])) ∧
    (∀ (c : Ctrl) (st : SimState) (cmd : List Char), c.connected = false →
      ctrlWrite simTransport c st cmd =
        (.error (.runtime "Instrument is not connected".data), st, [])) := by
  refine ⟨fun c st ho => tQuery_sim_ok (SimQuery_idn ho), fun c st ho => ?_,
    fun c st cmd hc => ?_⟩
  · refine tQuery_sim_error ?_
    unfold SimQuery
    rw [ho]
    rfl
  · unfold ctrlWrite
    rw [hc]
    rfl

/-- **C2**: over the simulated transport, `ramp_to_voltage` fails
immediately: its very first action is the `print(smua.source.levelv)`
query, which the emulator cannot evaluate, so the repository's own ramp
test scenario (target 0.05, step 0.02, dwell 0) raises instead of
stepping the level to 0.05 and returning false. -/
theorem C2_ramp_to_voltage_unsupported_levelv :
    ramp_to_voltage simTransport { channel := Channel.A, connected := true }
        { SimState.init with is_open := true } (mkRat 1 20) (mkRat 1 50) 0
        (some (mkRat 1 200)) =
      (.error (.notImplemented "Simulator cannot handle expression: smua.source.levelv".data),
        { SimState.init with is_open := true },
        [.query "print(smua.source.levelv)".data]) := by
  with_unfolding_all rfl

/-- **C6**: over the simulated transport, `ramp_to_zero` also fails on the
initial level query in both the within-tolerance scenario (level 0.03,
tolerance 0.05: the claim expects a no-op returning false) and the
ramp-down scenario (level 0.5: the claim expects a final level within
tolerance). -/
theorem C6_ramp_to_zero_unsupported_levelv :
    (ramp_to_zero simTransport { channel := Channel.A, connected := true }
        { SimState.init with
          is_open := true
          channels := [("smua".data, { ChannelState.default with level_v := mkRat 3 100 }),
            ("smub".data, ChannelState.default)] }
        (mkRat 1 5) 0 (mkRat 1 20) (some (mkRat 1 1000)) =
      (.error (.notImplemented "Simulator cannot handle expression: smua.source.levelv".data),
        { SimState.init with
          is_open := true
          channels := [("smua".data, { ChannelState.default with level_v := mkRat 3 100 }),
            ("smub".data, ChannelState.default)] },
        [.query "print(smua.source.levelv)".data])) ∧
    (ramp_to_zero simTransport { channel := Channel.A, connected := true }
        { SimState.init with
          is_open := true
          channels := [("smua".data, { ChannelState.default with level_v := mkRat 1 2 }),
            ("smub".data, ChannelState.default)] }
        (mkRat 1 5) 0 (mkRat 1 20) (some (mkRat 1 1000)) =
      (.error (.notImplemented "Simulator cannot handle expression: smua.source.levelv".data),
        { SimState.init with
          is_open := true
          channels := [("smua".data, { ChannelState.default with level_v := mkRat 1 2 }),
            ("smub".data, ChannelState.default)] },
        [.query "print(smua.source.levelv)".data])) := by
  constructor
  · with_unfolding_all rfl
  · with_unfolding_all rfl

end Keithley

namespace Keithley

lemma alias_ne : ∀ {chX chY : Channel}, chX ≠ chY → chX.alias ≠ chY.alias
  | .A, .A, h => absurd rfl h
  | .A, .B, _ => by decide
  | .B, .A, _ => by decide
  | .B, .B, h => absurd rfl h

/-- **C9**: a source-level assignment addressed to one channel updates only
that channel's record in the emulator; the other channel's record (every
field of it) is returned unchanged by the dictionary lookup. -/
theorem C9_channel_isolation (chX chY : Channel) (hne : chX ≠ chY) (q : ℚ)
    (st : SimState) (sX sY : ChannelState)
    (hX : dictGet st.channels chX.alias = some sX)
    (hY : dictGet st.channels chY.alias = some sY) :
    ∃ st' : SimState,
      processCmd (chY.alias ++ ".source.levelv = ".data ++ qRenderChars q) st = .ok st' ∧
      dictGet st'.channels chY.alias = some { sY with level_v := q } ∧
      dictGet st'.channels chX.alias = some sX := by
  refine ⟨{ st with channels := dictSet st.channels chY.alias ({ sY with level_v := q }) },
    ?_, ?_, ?_⟩
  · rw [processCmd_set_levelv, hY]
  · exact dictGet_dictSet_self _ _ _
  · rw [dictGet_dictSet_ne _ _ (alias_ne hne)]
    exact hX

theorem C9_channel_isolation_witness :
    Channel.A ≠ Channel.B ∧
    (∃ st' : SimState,
      processCmd (Channel.B.alias ++ ".source.levelv = ".data ++ qRenderChars (mkRat 6 5))
          SimState.init = .ok st' ∧
      dictGet st'.channels Channel.B.alias =
        some { ChannelState.default with level_v := mkRat 6 5 } ∧
      dictGet st'.channels Channel.A.alias = some ChannelState.default) :=
  ⟨by decide, C9_channel_isolation Channel.A Channel.B (by decide) (mkRat 6 5)
    SimState.init ChannelState.default ChannelState.default rfl rfl⟩

end Keithley

namespace Keithley


lemma parseInt?_digitsChars (n : Nat) : parseInt? (digitsChars n) = some (n : Int) := by
  unfold parseInt?
  rw [if_neg (digitsChars_head_not_neg n), parseNat?_digitsChars]
  rfl

lemma pyStrip_digitsChars (n : Nat) : pyStrip (digitsChars n) = digitsChars n := by
  apply pyStrip_eq_self
  · intro c hc
    have hm : c ∈ digitsChars n := by
      rcases hd : digitsChars n with _ | ⟨a, as⟩
      · exact absurd hd (digitsChars_ne_nil n)
      · rw [hd] at hc
        simp at hc
        simp [hd, hc]
    exact (digit_char_props (digitsChars_digits n c hm)).1
  · intro c hc
    have hm : c ∈ digitsChars n := List.mem_of_getLast?_eq_some hc
    exact (digit_char_props (digitsChars_digits n c hm)).1

lemma simState_eta (st : SimState) (hq : st.error_queue = []) :
    ({ st with error_queue := [] } : SimState) = st := by
  rw [← hq]

lemma drainLoop_sim (es : List ErrorTuple) : ∀ (st : SimState) (acc : List ErrorEntry),
    st.is_open = true → st.error_queue = es →
    (∀ e ∈ es, parseEntry (entryFormat e) = some e.toEntry) →
    drainLoop simTransport es.length st acc =
      (.ok (acc ++ es.map ErrorTuple.toEntry), { st with error_queue := [] },
        es.map (fun _ => Op.query drainScript)) := by
  induction es with
  | nil =>
    intro st acc ho hq _
    show ((.ok acc, st, []) : Res SimState (List ErrorEntry)) = _
    rw [simState_eta st hq, List.map_nil, List.append_nil, List.map_nil]
  | cons e rest ih =>
    intro st acc ho hq hwf
    have hstep : drainLoop simTransport (e :: rest).length st acc =
        rbind (tQuery simTransport st drainScript) (fun response st =>
          match parseEntry response with
          | some x => drainLoop simTransport rest.length st (acc ++ [x])
          | none => drainLoop simTransport rest.length st acc) := rfl
    have h1 : tQuery simTransport st drainScript =
        (.ok (entryFormat e), { st with error_queue := rest }, [.query drainScript]) :=
      tQuery_sim_ok (SimQuery_drainScript ho hq)
    have h2 : parseEntry (entryFormat e) = some e.toEntry := hwf e (List.mem_cons_self e rest)
    have hf : (fun response (st : SimState) =>
          match parseEntry response with
          | some x => drainLoop simTransport rest.length st (acc ++ [x])
          | none => drainLoop simTransport rest.length st acc)
          (entryFormat e) { st with error_queue := rest } =
        (.ok ((acc ++ [e.toEntry]) ++ rest.map ErrorTuple.toEntry),
          { st with error_queue := [] }, rest.map (fun _ => Op.query drainScript)) := by
      show (match parseEntry (entryFormat e) with
        | some x => drainLoop simTransport rest.length { st with error_queue := rest } (acc ++ [x])
        | none => drainLoop simTransport rest.length { st with error_queue := rest } acc) = _
      rw [h2]
      exact ih { st with error_queue := rest } (acc ++ [e.toEntry]) ho rfl
        (fun x hx => hwf x (List.mem_cons_of_mem _ hx))
    rw [hstep, h1, rbind_ok _ _ _ _ hf, List.append_assoc]
    rfl

lemma drain_eq_count {τ : Type} (T : TransportModel τ) (c : Ctrl) (st : τ) {st1 : τ} {n : Nat}
    (h : tQuery T st "print(errorqueue.count)".data =
      (.ok (digitsChars n), st1, [.query "print(errorqueue.count)".data])) :
    drain_error_queue T c st =
      (if (n : Int) ≤ 0 then
        ((.ok [], st1, [Op.query "print(errorqueue.count)".data]) : Res τ (List ErrorEntry))
       else match drainLoop T n st1 [] with
            | (e, st2, tr') => (e, st2, Op.query "print(errorqueue.count)".data :: tr')) := by
  have hne : (digitsChars n).isEmpty = false := by
    rcases hd : digitsChars n with _ | ⟨a, as⟩
    · exact absurd hd (digitsChars_ne_nil n)
    · rfl
  unfold drain_error_queue
  rw [h]
  simp only [hne, Bool.false_eq_true, if_false, pyStrip_digitsChars, parseInt?_digitsChars,
    Option.getD_some, Int.toNat_natCast]
  rfl

/-- **C3**: draining the error queue over the emulator: (1) in general, with
every queued tuple formatting to a parseable pipe-delimited response, the
drain returns exactly one entry per queued tuple, empties the queue, and
issues one count query plus exactly one pop query per tuple (zero pops when
the queue is empty) — instantiating twice gives the push-one/drain/drain-again
scenario; (2) a malformed response (message containing a pipe) is silently
skipped without aborting the drain; (3) the call fails only when the count
query itself fails, wrapped as a runtime error naming the cause. -/
theorem C3_drain_error_queue :
    (∀ (c : Ctrl) (st : SimState) (es : List ErrorTuple),
      st.is_open = true → st.error_queue = es →
      (∀ e ∈ es, parseEntry (entryFormat e) = some e.toEntry) →
      drain_error_queue simTransport c st =
        (.ok (es.map ErrorTuple.toEntry), { st with error_queue := [] },
          .query "print(errorqueue.count)".data :: es.map (fun _ => .query drainScript))) ∧
    (drain_error_queue simTransport { channel := Channel.A, connected := true }
        { SimState.init with
          is_open := true
          error_queue := [⟨1, "a|b".data, 2, 3⟩] } =
      (.ok [], { SimState.init with is_open := true },
        [.query "print(errorqueue.count)".data, .query drainScript])) ∧
    (drain_error_queue simTransport { channel := Channel.A, connected := true } SimState.init =
      (.error (.runtime "Failed to read error count: Transport is not open".data),
        SimState.init, [.query "print(errorqueue.count)".data])) := by
  refine ⟨?_, ?_, ?_⟩
  · intro c st es ho hq hwf
    have h1 : tQuery simTransport st "print(errorqueue.count)".data =
        (.ok (digitsChars st.error_queue.length), st,
          [.query "print(errorqueue.count)".data]) :=
      tQuery_sim_ok (SimQuery_count ho)
    rw [hq] at h1
    rw [drain_eq_count simTransport c st h1]
    rcases es with _ | ⟨e, rest⟩
    · rw [if_pos (by simp)]
      rw [simState_eta st hq, List.map_nil, List.map_nil]
    · rw [if_neg (by simp), drainLoop_sim (e :: rest) st [] ho hq hwf]
      rfl
  · with_unfolding_all rfl
  · with_unfolding_all rfl

theorem C3_drain_error_queue_witness :
    ({ SimState.init with
       is_open := true
       error_queue := [⟨-286, "Runtime error".data, 3, 0⟩] } : SimState).is_open = true ∧
    drain_error_queue simTransport { channel := Channel.A, connected := true }
        { SimState.init with
          is_open := true
          error_queue := [⟨-286, "Runtime error".data, 3, 0⟩] } =
      (.ok [⟨-286, "Runtime error".data, 3, 0⟩], { SimState.init with is_open := true },
        [.query "print(errorqueue.count)".data, .query drainScript]) ∧
    drain_error_queue simTransport { channel := Channel.A, connected := true }
        { SimState.init with is_open := true } =
      (.ok [], { SimState.init with is_open := true },
        [.query "print(errorqueue.count)".data]) := by
  refine ⟨rfl, ?_, ?_⟩
  · exact C3_drain_error_queue.1 { channel := Channel.A, connected := true } _
      [⟨-286, "Runtime error".data, 3, 0⟩] rfl rfl (by decide)
  · exact C3_drain_error_queue.1 { channel := Channel.A, connected := true } _ [] rfl rfl
      (by intro e he; cases he)

end Keithley

namespace Keithley

theorem C1_configure_voltage_source_witness :
    (({ channel := Channel.A, connected := true } : Ctrl).connected = true) ∧
    (({ SimState.init with is_open := true } : SimState).is_open = true) ∧
    (dictGet ({ SimState.init with is_open := true } : SimState).channels
      ({ channel := Channel.A, connected := true } : Ctrl).channel.alias =
        some ChannelState.default) ∧
    (∃ st' : SimState,
      configure_voltage_source simTransport { channel := Channel.A, connected := true }
          { SimState.init with is_open := true } ⟨mkRat 3 2, mkRat 1 500, true⟩ =
        (.ok (), st',
          [.write (Channel.A.alias ++ ".source.func = ".data ++ Channel.A.alias ++
             ".OUTPUT_DCVOLTS".data),
           .write (Channel.A.alias ++ ".source.autorangev = ".data ++ Channel.A.alias ++
             (if (true : Bool) then ".AUTORANGE_ON".data else ".AUTORANGE_OFF".data)),
           .write (Channel.A.alias ++ ".source.levelv = ".data ++ qRenderChars (mkRat 3 2)),
           .write (Channel.A.alias ++ ".source.limiti = ".data ++ qRenderChars (mkRat 1 500))]) ∧
      dictGet st'.channels Channel.A.alias =
        some { ChannelState.default with
               func := "OUTPUT_DCVOLTS".data
               autorange := true
               level_v := mkRat 3 2
               limit_i := mkRat 1 500 }) :=
  ⟨rfl, rfl, rfl,
    C1_configure_voltage_source ⟨mkRat 3 2, mkRat 1 500, true⟩
      { channel := Channel.A, connected := true } { SimState.init with is_open := true }
      ChannelState.default rfl rfl rfl⟩

theorem C7_unsupported_command_witness :
    (pyStrip "hello".data ≠ []) ∧
    SimWrite { SimState.init with is_open := true } "hello".data =
      .error (.notImplemented ("Simulator cannot handle command: ".data ++
        pyStrip "hello".data)) :=
  ⟨by decide,
    C7_unsupported_command "hello".data { SimState.init with is_open := true } rfl
      (by decide) (by decide) (by decide) (by decide) (by decide) (by decide) (by decide)
      (by decide) (by decide)⟩

end Keithley

namespace Keithley


lemma sleepCount_append (a b : List Op) :
    sleepCount (a ++ b) = sleepCount a + sleepCount b :=
  List.countP_append _ a b

lemma sleepCount_rbind_zero {τ α β : Type} {r : Res τ α} {f : α → τ → Res τ β}
    (hr : sleepCount r.2.2 = 0) (hf : ∀ a st, sleepCount (f a st).2.2 = 0) :
    sleepCount (rbind r f).2.2 = 0 := by
  rcases r with ⟨e, st, tr⟩
  rcases e with e | a
  · exact hr
  · show sleepCount (match f a st with | (e, st', tr') => (e, st', tr ++ tr')).2.2 = 0
    rcases hfa : f a st with ⟨e', st', tr'⟩
    show sleepCount (tr ++ tr') = 0
    have h2 := hf a st
    rw [hfa] at h2
    rw [sleepCount_append, hr, h2]

lemma sleepCount_ctrlWrite {τ : Type} (T : TransportModel τ) (c : Ctrl) (st : τ)
    (cmd : List Char) : sleepCount (ctrlWrite T c st cmd).2.2 = 0 := by
  unfold ctrlWrite
  rcases hc : c.connected
  · rfl
  · rcases hw : T.write st cmd with e | st' <;> rfl

lemma sleepCount_tQuery {τ : Type} (T : TransportModel τ) (st : τ) (cmd : List Char) :
    sleepCount (tQuery T st cmd).2.2 = 0 := by
  unfold tQuery
  rcases hw : T.query st cmd with e | ⟨r, st'⟩ <;> rfl

lemma sleepCount_batchWrite {τ : Type} (T : TransportModel τ) (c : Ctrl) :
    ∀ (cmds : List (List Char)) (st : τ), sleepCount (batchWrite T c st cmds).2.2 = 0 := by
  intro cmds
  induction cmds with
  | nil => intro st; rfl
  | cons cmd rest ih =>
    intro st
    rw [batchWrite_cons]
    exact sleepCount_rbind_zero (sleepCount_ctrlWrite T c st cmd) (fun a st' => ih st')

lemma sleepCount_read_compliance {τ : Type} (T : TransportModel τ) (c : Ctrl) (st : τ) :
    sleepCount (read_compliance T c st).2.2 = 0 := by
  unfold read_compliance
  exact sleepCount_rbind_zero (sleepCount_tQuery _ _ _) (fun a st' => rfl)

lemma sleepCount_quick_set_source {τ : Type} (T : TransportModel τ) (c : Ctrl) (st : τ)
    (l i : Option ℚ) : sleepCount (quick_set_source T c st l i).2.2 = 0 := by
  unfold quick_set_source
  exact sleepCount_rbind_zero (sleepCount_batchWrite T c _ st)
    (fun a st' => sleepCount_read_compliance T c st')

lemma sleepCount_measure_voltage {τ : Type} (T : TransportModel τ) (c : Ctrl) (st : τ) :
    sleepCount (measure_voltage T c st).2.2 = 0 := by
  unfold measure_voltage
  refine sleepCount_rbind_zero (sleepCount_tQuery _ _ _) (fun a st' => ?_)
  rcases hp : pyFloat? a with _ | v <;> rfl

lemma sleepCount_safe_measure_voltage {τ : Type} (T : TransportModel τ) (c : Ctrl) (st : τ) :
    sleepCount (safe_measure_voltage T c st).2.2 = 0 := by
  unfold safe_measure_voltage
  have h := sleepCount_measure_voltage T c st
  rcases hm : measure_voltage T c st with ⟨e, st', tr⟩
  rw [hm] at h
  rcases e with e | v
  · exact h
  · exact h

lemma rampLoop_sleepCount {τ : Type} (T : TransportModel τ) (c : Ctrl)
    (tv sv ds : ℚ) (lim : Option ℚ) (dir : ℚ) (hd : ds ≠ 0) :
    ∀ (k : Nat) (i : Nat) (lvl : ℚ) (comp : Bool) (st : τ) {b : Bool} {st' : τ} {tr : List Op},
      rampLoop T c tv sv ds lim dir k i lvl comp st = (.ok b, st', tr) →
      sleepCount tr = k := by
  intro k
  induction k with
  | zero =>
    intro i lvl comp st b st' tr h
    have h2 : ((.ok comp, st, []) : Res τ Bool) = (.ok b, st', tr) := h
    rw [Prod.mk.injEq, Prod.mk.injEq] at h2
    rw [← h2.2.2]
    rfl
  | succ k ih =>
    intro i lvl comp st b st' tr h
    have hstep : rampLoop T c tv sv ds lim dir (k + 1) i lvl comp st =
        rbind (quick_set_source T c st (some (lvl + dir * min sv |tv - lvl|))
            (if i = 0 then lim else none)) (fun c2 st =>
          rbind (safe_measure_voltage T c st) fun _ st =>
            match rampLoop T c tv sv ds lim dir k (i + 1) (lvl + dir * min sv |tv - lvl|)
                (c2 || comp) st with
            | (e, st', tr) => (e, st', (if ds ≠ 0 then [Op.sleep ds] else []) ++ tr)) := rfl
    rw [hstep] at h
    rcases hq : quick_set_source T c st (some (lvl + dir * min sv |tv - lvl|))
        (if i = 0 then lim else none) with ⟨eq, stq, trq⟩
    have hq0 := sleepCount_quick_set_source T c st (some (lvl + dir * min sv |tv - lvl|))
      (if i = 0 then lim else none)
    rw [hq] at hq0 h
    rcases eq with e1 | c2
    · rw [rbind_error] at h
      rw [Prod.mk.injEq] at h
      exact absurd h.1 (by intro hh; cases hh)
    · rcases hs : safe_measure_voltage T c stq with ⟨es, sts, trs⟩
      have hs0 := sleepCount_safe_measure_voltage T c stq
      rw [hs] at hs0
      rcases es with e2 | u
      · have hmid : (fun c2 st =>
            rbind (safe_measure_voltage T c st) fun _ st =>
              match rampLoop T c tv sv ds lim dir k (i + 1) (lvl + dir * min sv |tv - lvl|)
                  (c2 || comp) st with
              | (e, st', tr) => (e, st', (if ds ≠ 0 then [Op.sleep ds] else []) ++ tr))
            c2 stq = (.error e2, sts, trs) := by
          show rbind (safe_measure_voltage T c stq) _ = _
          rw [hs, rbind_error]
        rw [rbind_ok _ _ _ _ hmid] at h
        rw [Prod.mk.injEq] at h
        exact absurd h.1 (by intro hh; cases hh)
      · rcases hr : rampLoop T c tv sv ds lim dir k (i + 1) (lvl + dir * min sv |tv - lvl|)
            (c2 || comp) sts with ⟨e3, st3, tr3⟩
        have hinner : (fun (_ : Option ℚ) (st : τ) =>
            match rampLoop T c tv sv ds lim dir k (i + 1) (lvl + dir * min sv |tv - lvl|)
                (c2 || comp) st with
            | (e, st', tr) => (e, st', (if ds ≠ 0 then [Op.sleep ds] else []) ++ tr))
            u sts = (e3, st3, (if ds ≠ 0 then [Op.sleep ds] else []) ++ tr3) := by
          show (match rampLoop T c tv sv ds lim dir k (i + 1) (lvl + dir * min sv |tv - lvl|)
              (c2 || comp) sts with
            | (e, st', tr) => (e, st', (if ds ≠ 0 then [Op.sleep ds] else []) ++ tr)) = _
          rw [hr]
        have hmid : (fun c2 st =>
            rbind (safe_measure_voltage T c st) fun _ st =>
              match rampLoop T c tv sv ds lim dir k (i + 1) (lvl + dir * min sv |tv - lvl|)
                  (c2 || comp) st with
              | (e, st', tr) => (e, st', (if ds ≠ 0 then [Op.sleep ds] else []) ++ tr))
            c2 stq = (e3, st3, trs ++ ((if ds ≠ 0 then [Op.sleep ds] else []) ++ tr3)) := by
          show rbind (safe_measure_voltage T c stq) _ = _
          rw [hs, rbind_ok _ _ _ _ hinner]
        rw [rbind_ok _ _ _ _ hmid] at h
        rw [Prod.mk.injEq, Prod.mk.injEq] at h
        have he3 : e3 = .ok b := h.1
        rw [he3] at hr
        have h3 := ih (i + 1) (lvl + dir * min sv |tv - lvl|) (c2 || comp) sts hr
        rw [← h.2.2, if_pos hd, sleepCount_append, sleepCount_append, sleepCount_append,
          hq0, hs0, h3, show sleepCount [Op.sleep ds] = 1 from rfl]
        omega

lemma steps_eq_ceil {δ s : ℚ} (hs : 0 < s) :
    ((ratFloor (|δ| / s)).toNat + (if |δ| - s * ratFloor (|δ| / s) ≠ 0 then 1 else 0)) =
      (⌈|δ| / s⌉).toNat := by
  rw [ratFloor_eq_floor]
  have hx0 : (0 : ℚ) ≤ |δ| / s := div_nonneg (abs_nonneg δ) hs.le
  have hfl0 : 0 ≤ ⌊|δ| / s⌋ := Int.floor_nonneg.mpr hx0
  have hsx : s * (|δ| / s) = |δ| := by
    rw [← mul_div_assoc]
    exact mul_div_cancel_left₀ _ hs.ne'
  have hkey : |δ| - s * ⌊|δ| / s⌋ = s * (|δ| / s - ⌊|δ| / s⌋) := by
    rw [mul_sub, hsx]
  by_cases hint : |δ| / s - ⌊|δ| / s⌋ = 0
  · have h1 : |δ| - s * ⌊|δ| / s⌋ = 0 := by rw [hkey, hint, mul_zero]
    rw [if_neg (not_not_intro h1)]
    have hxe : (⌊|δ| / s⌋ : ℚ) = |δ| / s := by linarith
    have h2 : ⌈|δ| / s⌉ = ⌊|δ| / s⌋ := by
      rw [← hxe, Int.ceil_intCast, Int.floor_intCast]
    rw [h2]
    omega
  · have h1 : |δ| - s * ⌊|δ| / s⌋ ≠ 0 := by
      rw [hkey]
      exact mul_ne_zero hs.ne' hint
    rw [if_pos h1]
    have hlt : (⌊|δ| / s⌋ : ℚ) < |δ| / s :=
      lt_of_le_of_ne (Int.floor_le _) (by intro hh; exact hint (by linarith))
    have hub : ⌈|δ| / s⌉ ≤ ⌊|δ| / s⌋ + 1 := by
      apply Int.ceil_le.mpr
      push_cast
      linarith [Int.lt_floor_add_one (|δ| / s)]
    have hlb : ⌊|δ| / s⌋ + 1 ≤ ⌈|δ| / s⌉ := by
      have hq : (⌊|δ| / s⌋ : ℚ) < (⌈|δ| / s⌉ : ℚ) := lt_of_lt_of_le hlt (Int.le_ceil _)
      have hzq : ⌊|δ| / s⌋ < ⌈|δ| / s⌉ := by exact_mod_cast hq
      omega
    have h2 : ⌈|δ| / s⌉ = ⌊|δ| / s⌋ + 1 := le_antisymm hub hlb
    rw [h2]
    omega

end Keithley

namespace Keithley

/-- **C8 counterexample**: with dwell 0.1, when the remaining delta is at
most one step (target 0.01, step 0.02 from level 0) the ramp degenerates to
a single quick-set and performs zero sleeps, although
`ceil(|delta| / step) = 1`. -/
theorem C8_counterexample :
    ramp_to_voltage constTransport { channel := Channel.A, connected := true } ()
        (mkRat 1 100) (mkRat 1 50) (mkRat 1 10) none =
      (.ok false, (),
        [.query "print(smua.source.levelv)".data,
         .write "smua.source.levelv = 1/100".data,
         .query "print(smua.source.compliance)".data,
         .query "print(smua.measure.v())".data]) ∧
    sleepCount
        [.query "print(smua.source.levelv)".data,
         .write "smua.source.levelv = 1/100".data,
         .query "print(smua.source.compliance)".data,
         .query "print(smua.measure.v())".data] = 0 ∧
    (⌈|mkRat 1 100 - 0| / mkRat 1 50⌉).toNat = 1 := by
  refine ⟨?_, rfl, ?_⟩
  · with_unfolding_all rfl
  · rw [show (mkRat 1 100 - 0 : ℚ) = mkRat 1 100 from by norm_num]
    rw [show |(mkRat 1 100 : ℚ)| = mkRat 1 100 from abs_of_pos (by norm_num)]
    rw [show (mkRat 1 100 / mkRat 1 50 : ℚ) = 1 / 2 from by norm_num]
    rw [show (⌈(1 / 2 : ℚ)⌉ : Int) = 1 from by rw [Int.ceil_eq_iff]; norm_num]
    rfl

/-- **C8 (amended)**: with positive step and dwell 0.1, for a run of
`ramp_to_voltage` that completes without an exception, the number of sleep
pauses is `ceil(|target - start| / step)` when the initial delta exceeds one
step, but `0` — not the claimed ceiling, which is 1 — when the delta is at
most one step and the ramp degenerates to a single quick-set. -/
theorem C8_ramp_dwell {τ : Type} (T : TransportModel τ) (c : Ctrl) (st st1 : τ)
    (target_v step_v : ℚ) (lim : Option ℚ) (resp : List Char) (current : ℚ)
    (hs : 0 < step_v)
    (hq : T.query st (levelQuery c) = .ok (resp, st1))
    (hp : floatOr0 resp = .ok current) :
    ∀ {b : Bool} {st' : τ} {tr : List Op},
      ramp_to_voltage T c st target_v step_v (mkRat 1 10) lim = (.ok b, st', tr) →
      sleepCount tr =
        if |target_v - current| ≤ step_v then 0
        else (⌈|target_v - current| / step_v⌉).toNat := by
  intro b st' tr h
  unfold ramp_to_voltage at h
  rw [if_neg (not_le.mpr hs), if_neg (by norm_num), tQuery_ok hq] at h
  by_cases hcase : |target_v - current| ≤ step_v
  · rcases hin : rbind (quick_set_source T c st1 (some target_v) lim) (fun compliance st =>
        rbind (safe_measure_voltage T c st) fun _ st =>
          ((.ok compliance, st, []) : Res τ Bool)) with ⟨e2, st2, tr2⟩
    have hfv : (fun response (st : τ) =>
        match floatOr0 response with
        | .error e => ((.error e, st, []) : Res τ Bool)
        | .ok current_level =>
          let delta := target_v - current_level
          if |delta| ≤ step_v then
            rbind (quick_set_source T c st (some target_v) lim) fun compliance st =>
              rbind (safe_measure_voltage T c st) fun _ st => (.ok compliance, st, [])
          else
            let fl : Int := ratFloor (|delta| / step_v)
            let steps : Nat := fl.toNat + (if |delta| - step_v * fl ≠ 0 then 1 else 0)
            let dir : ℚ := if delta > 0 then 1 else -1
            rampLoop T c target_v step_v (mkRat 1 10) lim dir steps 0 current_level false st)
        resp st1 = (e2, st2, tr2) := by
      show (match floatOr0 resp with
        | .error e => ((.error e, st1, []) : Res τ Bool)
        | .ok current_level =>
          let delta := target_v - current_level
          if |delta| ≤ step_v then
            rbind (quick_set_source T c st1 (some target_v) lim) fun compliance st =>
              rbind (safe_measure_voltage T c st) fun _ st => (.ok compliance, st, [])
          else
            let fl : Int := ratFloor (|delta| / step_v)
            let steps : Nat := fl.toNat + (if |delta| - step_v * fl ≠ 0 then 1 else 0)
            let dir : ℚ := if delta > 0 then 1 else -1
            rampLoop T c target_v step_v (mkRat 1 10) lim dir steps 0 current_level false st1)
        = _
      rw [hp]
      show (if |target_v - current| ≤ step_v then _ else _) = _
      rw [if_pos hcase]
      exact hin
    rw [rbind_ok _ _ _ _ hfv, Prod.mk.injEq, Prod.mk.injEq] at h
    have h0 : sleepCount tr2 = 0 := by
      have := @sleepCount_rbind_zero τ Bool Bool
        (quick_set_source T c st1 (some target_v) lim)
        (fun compliance st =>
          rbind (safe_measure_voltage T c st) fun _ st => ((.ok compliance, st, []) : Res τ Bool))
        (sleepCount_quick_set_source T c st1 (some target_v) lim)
        (fun a st2' => sleepCount_rbind_zero (sleepCount_safe_measure_voltage T c st2')
          (fun _ _ => rfl))
      rw [hin] at this
      exact this
    rw [← h.2.2, if_pos hcase, sleepCount_append, h0]
    rfl
  · rcases hin : rampLoop T c target_v step_v (mkRat 1 10) lim
        (if target_v - current > 0 then 1 else -1)
        ((ratFloor (|target_v - current| / step_v)).toNat +
          (if |target_v - current| - step_v * ratFloor (|target_v - current| / step_v) ≠ 0
           then 1 else 0)) 0 current false st1 with ⟨e2, st2, tr2⟩
    have hfv : (fun response (st : τ) =>
        match floatOr0 response with
        | .error e => ((.error e, st, []) : Res τ Bool)
        | .ok current_level =>
          let delta := target_v - current_level
          if |delta| ≤ step_v then
            rbind (quick_set_source T c st (some target_v) lim) fun compliance st =>
              rbind (safe_measure_voltage T c st) fun _ st => (.ok compliance, st, [])
          else
            let fl : Int := ratFloor (|delta| / step_v)
            let steps : Nat := fl.toNat + (if |delta| - step_v * fl ≠ 0 then 1 else 0)
            let dir : ℚ := if delta > 0 then 1 else -1
            rampLoop T c target_v step_v (mkRat 1 10) lim dir steps 0 current_level false st)
        resp st1 = (e2, st2, tr2) := by
      show (match floatOr0 resp with
        | .error e => ((.error e, st1, []) : Res τ Bool)
        | .ok current_level =>
          let delta := target_v - current_level
          if |delta| ≤ step_v then
            rbind (quick_set_source T c st1 (some target_v) lim) fun compliance st =>
              rbind (safe_measure_voltage T c st) fun _ st => (.ok compliance, st, [])
          else
            let fl : Int := ratFloor (|delta| / step_v)
            let steps : Nat := fl.toNat + (if |delta| - step_v * fl ≠ 0 then 1 else 0)
            let dir : ℚ := if delta > 0 then 1 else -1
            rampLoop T c target_v step_v (mkRat 1 10) lim dir steps 0 current_level false st1)
        = _
      rw [hp]
      show (if |target_v - current| ≤ step_v then _ else _) = _
      rw [if_neg hcase]
      exact hin
    rw [rbind_ok _ _ _ _ hfv, Prod.mk.injEq, Prod.mk.injEq] at h
    have he2 : e2 = .ok b := h.1
    rw [he2] at hin
    have h3 := rampLoop_sleepCount T c target_v step_v (mkRat 1 10) lim
      (if target_v - current > 0 then 1 else -1) (by norm_num) _ 0 current false st1 hin
    rw [← h.2.2, if_neg hcase, sleepCount_append, h3, steps_eq_ceil hs,
      show sleepCount [Op.query (levelQuery c)] = 0 from rfl]
    omega

theorem C8_ramp_dwell_witness :
    (0 < mkRat 1 50) ∧
    sleepCount
        [.query "print(smua.source.levelv)".data,
         .write "smua.source.levelv = 1/50".data,
         .query "print(smua.source.compliance)".data,
         .query "print(smua.measure.v())".data,
         .sleep (mkRat 1 10),
         .write "smua.source.levelv = 1/25".data,
         .query "print(smua.source.compliance)".data,
         .query "print(smua.measure.v())".data,
         .sleep (mkRat 1 10),
         .write "smua.source.levelv = 3/50".data,
         .query "print(smua.source.compliance)".data,
         .query "print(smua.measure.v())".data,
         .sleep (mkRat 1 10)] =
      if |mkRat 3 50 - 0| ≤ mkRat 1 50 then 0
      else (⌈|mkRat 3 50 - 0| / mkRat 1 50⌉).toNat :=
  ⟨by norm_num,
    C8_ramp_dwell constTransport { channel := Channel.A, connected := true } () ()
      (mkRat 3 50) (mkRat 1 50) none "0".data 0 (by norm_num) rfl (by with_unfolding_all decide)
      (by with_unfolding_all rfl)⟩

end Keithley

namespace Keithley


/-- **C10**: the boolean returned by `ramp_to_zero` is exactly the
compliance flag returned by the delegated `ramp_to_voltage` call; when the
post-ramp level still exceeds the tolerance, the corrective
`quick_set_source(level=0)` trim runs but its own compliance reading is
discarded from the result. -/
theorem C10_trim_compliance_discarded {τ : Type} (T : TransportModel τ) (c : Ctrl)
    (st st1 : τ) (sv ds tol : ℚ) (lim : Option ℚ) (resp1 : List Char) (cur1 : ℚ)
    (hq1 : T.query st (levelQuery c) = .ok (resp1, st1))
    (hp1 : floatOr0 resp1 = .ok cur1)
    (hout : ¬ |cur1| ≤ tol)
    {compliance : Bool} {st2 : τ} {tr2 : List Op}
    (hr : ramp_to_voltage T c st1 0 sv ds lim = (.ok compliance, st2, tr2))
    (resp2 : List Char) (cur2 : ℚ) {st3 : τ}
    (hq2 : T.query st2 (levelQuery c) = .ok (resp2, st3))
    (hp2 : floatOr0 resp2 = .ok cur2)
    (htrim : |cur2| > tol)
    {c3 : Bool} {st4 : τ} {tr4 : List Op}
    (hq3 : quick_set_source T c st3 (some 0) lim = (.ok c3, st4, tr4)) :
    ramp_to_zero T c st sv ds tol lim =
      (.ok compliance, st4,
        [.query (levelQuery c)] ++ (tr2 ++ ([.query (levelQuery c)] ++ tr4))) := by
  have h3b : rbind (quick_set_source T c st3 (some 0) lim)
      (fun (_ : Bool) (st : τ) => ((.ok compliance, st, []) : Res τ Bool)) =
      (.ok compliance, st4, tr4) := by
    rw [hq3]
    have h := rbind_ok c3 st4 tr4
      (fun (_ : Bool) (st : τ) => ((.ok compliance, st, []) : Res τ Bool)) rfl
    rw [List.append_nil] at h
    exact h
  have hf3 : (fun response2 (st : τ) =>
      match floatOr0 response2 with
      | .error e => ((.error e, st, []) : Res τ Bool)
      | .ok current_level2 =>
        if |current_level2| > tol then
          rbind (quick_set_source T c st (some 0) lim) fun _ st =>
            (.ok compliance, st, [])
        else (.ok compliance, st, [])) resp2 st3 = (.ok compliance, st4, tr4) := by
    show (match floatOr0 resp2 with
      | .error e => ((.error e, st3, []) : Res τ Bool)
      | .ok current_level2 =>
        if |current_level2| > tol then
          rbind (quick_set_source T c st3 (some 0) lim) fun _ st =>
            (.ok compliance, st, [])
        else (.ok compliance, st3, [])) = _
    rw [hp2]
    show (if |cur2| > tol then _ else _) = _
    rw [if_pos htrim]
    exact h3b
  have hf2 : (fun (compliance : Bool) (st : τ) =>
      rbind (tQuery T st (levelQuery c)) fun response2 st =>
        match floatOr0 response2 with
        | .error e => ((.error e, st, []) : Res τ Bool)
        | .ok current_level2 =>
          if |current_level2| > tol then
            rbind (quick_set_source T c st (some 0) lim) fun _ st =>
              (.ok compliance, st, [])
          else (.ok compliance, st, [])) compliance st2 =
      (.ok compliance, st4, [Op.query (levelQuery c)] ++ tr4) := by
    show rbind (tQuery T st2 (levelQuery c)) _ = _
    rw [tQuery_ok hq2, rbind_ok _ _ _ _ hf3]
  have hf1 : (fun response (st : τ) =>
      match floatOr0 response with
      | .error e => ((.error e, st, []) : Res τ Bool)
      | .ok current_level =>
        if |current_level| ≤ tol then (.ok false, st, [])
        else
          rbind (ramp_to_voltage T c st 0 sv ds lim) fun compliance st =>
            rbind (tQuery T st (levelQuery c)) fun response2 st =>
              match floatOr0 response2 with
              | .error e => (.error e, st, [])
              | .ok current_level2 =>
                if |current_level2| > tol then
                  rbind (quick_set_source T c st (some 0) lim) fun _ st =>
                    (.ok compliance, st, [])
                else (.ok compliance, st, [])) resp1 st1 =
      (.ok compliance, st4, tr2 ++ ([Op.query (levelQuery c)] ++ tr4)) := by
    show (match floatOr0 resp1 with
      | .error e => ((.error e, st1, []) : Res τ Bool)
      | .ok current_level =>
        if |current_level| ≤ tol then (.ok false, st1, [])
        else
          rbind (ramp_to_voltage T c st1 0 sv ds lim) fun compliance st =>
            rbind (tQuery T st (levelQuery c)) fun response2 st =>
              match floatOr0 response2 with
              | .error e => (.error e, st, [])
              | .ok current_level2 =>
                if |current_level2| > tol then
                  rbind (quick_set_source T c st (some 0) lim) fun _ st =>
                    (.ok compliance, st, [])
                else (.ok compliance, st, [])) = _
    rw [hp1]
    show (if |cur1| ≤ tol then _ else _) = _
    rw [if_neg hout]
    show rbind (ramp_to_voltage T c st1 0 sv ds lim) _ = _
    rw [hr, rbind_ok _ _ _ _ hf2]
  unfold ramp_to_zero
  rw [tQuery_ok hq1, rbind_ok _ _ _ _ hf1]

theorem C10_trim_compliance_discarded_witness :
    quick_set_source toyTransport { channel := Channel.A, connected := true } 5
        (some 0) none =
      (.ok true, 6,
        [.write "smua.source.levelv = 0/1".data,
         .query "print(smua.source.compliance)".data]) ∧
    ramp_to_zero toyTransport { channel := Channel.A, connected := true } 0
        (mkRat 1 2) 0 (mkRat 1 20) none =
      (.ok false, 6,
        [.query "print(smua.source.levelv)".data,
         .query "print(smua.source.levelv)".data,
         .write "smua.source.levelv = 0/1".data,
         .query "print(smua.source.compliance)".data,
         .query "print(smua.measure.v())".data,
         .query "print(smua.source.levelv)".data,
         .write "smua.source.levelv = 0/1".data,
         .query "print(smua.source.compliance)".data]) :=
  ⟨by with_unfolding_all rfl,
    C10_trim_compliance_discarded toyTransport { channel := Channel.A, connected := true }
      0 1 (mkRat 1 2) 0 (mkRat 1 20) none "1/2".data (mkRat 1 2) rfl
      (by with_unfolding_all decide) (by with_unfolding_all decide)
      (show ramp_to_voltage toyTransport { channel := Channel.A, connected := true } 1 0
          (mkRat 1 2) 0 none =
        (.ok false, 4,
          [.query "print(smua.source.levelv)".data,
           .write "smua.source.levelv = 0/1".data,
           .query "print(smua.source.compliance)".data,
           .query "print(smua.measure.v())".data]) from by with_unfolding_all rfl)
      "1/10".data (mkRat 1 10) rfl
      (by with_unfolding_all decide) (by with_unfolding_all decide)
      (show quick_set_source toyTransport { channel := Channel.A, connected := true } 5
          (some 0) none =
        (.ok true, 6,
          [.write "smua.source.levelv = 0/1".data,
           .query "print(smua.source.compliance)".data]) from by with_unfolding_all rfl)⟩

end Keithley


namespace Keithley

lemma BSafe_query (ch : Channel) (cmd : List Char) : BSafe ch (.query cmd) = true := rfl

lemma BSafe_sleep (ch : Channel) (d : ℚ) : BSafe ch (.sleep d) = true := rfl

lemma BSafe_rst (ch : Channel) : BSafe ch (.write "*RST".data) = true := rfl

lemma BSafe_of_not_addressed {ch : Channel} {o : Op} (h : addressedTo ch o = false) :
    BSafe ch o = true := by
  unfold BSafe
  rw [h]
  rw [Bool.not_false, Bool.or_true]

lemma pyStarts_false_append {L p : List Char} (R : List Char) (h : p.length ≤ L.length)
    (hf : pyStarts L p = false) : pyStarts (L ++ R) p = false := by
  rw [pyStarts_append_of_le R h]
  exact hf

lemma len_le_append_left {p L : List Char} (R : List Char) (h : p.length ≤ L.length) :
    p.length ≤ (L ++ R).length := by
  rw [List.length_append]
  omega

lemma BSafe_chreset {cc ch : Channel} (o : Op)
    (ho : o = .write (cc.alias ++ ".reset()".data)) : BSafe ch o = true := by
  rw [ho]
  cases cc <;> cases ch <;> decide

lemma addressedTo_own_prefix {cc ch : Channel} (hne : cc ≠ ch) {cmd rest : List Char}
    (hpre : cmd = (cc.alias ++ ".".data) ++ rest) :
    addressedTo ch (.write cmd) = false := by
  rw [hpre]
  show pyStarts ((cc.alias ++ ".".data) ++ rest) (ch.alias ++ ".".data) = false
  cases cc <;> cases ch
  · exact absurd rfl hne
  · rw [pyStarts_false_append rest (by decide) (by decide)]
  · rw [pyStarts_false_append rest (by decide) (by decide)]
  · exact absurd rfl hne

lemma TraceSafe_rbind {τ α β : Type} {ch : Channel} {r : Res τ α} {f : α → τ → Res τ β}
    (hr : ∀ o ∈ r.2.2, BSafe ch o = true)
    (hf : ∀ a st, ∀ o ∈ (f a st).2.2, BSafe ch o = true) :
    ∀ o ∈ (rbind r f).2.2, BSafe ch o = true := by
  rcases r with ⟨e, st, tr⟩
  rcases e with e | a
  · exact hr
  · show ∀ o ∈ (match f a st with | (e, st', tr') => (e, st', tr ++ tr')).2.2, BSafe ch o = true
    rcases hfa : f a st with ⟨e', st', tr'⟩
    show ∀ o ∈ tr ++ tr', BSafe ch o = true
    intro o ho
    rcases List.mem_append.mp ho with h | h
    · exact hr o h
    · have := hf a st
      rw [hfa] at this
      exact this o h

lemma TraceSafe_ctrlWrite {τ : Type} {ch : Channel} (T : TransportModel τ) (c : Ctrl) (st : τ)
    {cmd : List Char} (hcmd : BSafe ch (.write cmd) = true) :
    ∀ o ∈ (ctrlWrite T c st cmd).2.2, BSafe ch o = true := by
  unfold ctrlWrite
  rcases hc : c.connected
  · intro o ho
    cases ho
  · rcases hw : T.write st cmd with e | st' <;>
    · intro o ho
      rcases ho with _ | ⟨_, h⟩
      · exact hcmd
      · cases h

lemma TraceSafe_tQuery {τ : Type} {ch : Channel} (T : TransportModel τ) (st : τ)
    (cmd : List Char) : ∀ o ∈ (tQuery T st cmd).2.2, BSafe ch o = true := by
  unfold tQuery
  rcases hw : T.query st cmd with e | ⟨r, st'⟩ <;>
  · intro o ho
    rcases ho with _ | ⟨_, h⟩
    · exact BSafe_query ch cmd
    · cases h

lemma TraceSafe_batchWrite {τ : Type} {ch : Channel} (T : TransportModel τ) (c : Ctrl) :
    ∀ (cmds : List (List Char)) (st : τ),
      (∀ cmd ∈ cmds, BSafe ch (.write cmd) = true) →
      ∀ o ∈ (batchWrite T c st cmds).2.2, BSafe ch o = true := by
  intro cmds
  induction cmds with
  | nil =>
    intro st _ o ho
    cases ho
  | cons cmd rest ih =>
    intro st hcmds
    rw [batchWrite_cons]
    exact TraceSafe_rbind
      (TraceSafe_ctrlWrite T c st (hcmds cmd (List.mem_cons_self cmd rest)))
      (fun a st' => ih st' (fun x hx => hcmds x (List.mem_cons_of_mem _ hx)))

lemma TraceSafe_read_compliance {τ : Type} {ch : Channel} (T : TransportModel τ) (c : Ctrl)
    (st : τ) : ∀ o ∈ (read_compliance T c st).2.2, BSafe ch o = true := by
  unfold read_compliance
  exact TraceSafe_rbind (TraceSafe_tQuery T st _) (fun a st' o ho => by cases ho)

end Keithley

namespace Keithley

lemma BSafe_levelv_cmd {cc ch : Channel} (hne : cc ≠ ch) (q : ℚ) :
    BSafe ch (.write (cc.alias ++ ".source.levelv = ".data ++ qRenderChars q)) = true := by
  apply BSafe_of_not_addressed
  cases cc <;> cases ch
  · exact absurd rfl hne
  · exact pyStarts_false_append _ (by decide) (by decide)
  · exact pyStarts_false_append _ (by decide) (by decide)
  · exact absurd rfl hne

lemma BSafe_limiti_cmd {cc ch : Channel} (hne : cc ≠ ch) (q : ℚ) :
    BSafe ch (.write (cc.alias ++ ".source.limiti = ".data ++ qRenderChars q)) = true := by
  apply BSafe_of_not_addressed
  cases cc <;> cases ch
  · exact absurd rfl hne
  · exact pyStarts_false_append _ (by decide) (by decide)
  · exact pyStarts_false_append _ (by decide) (by decide)
  · exact absurd rfl hne

lemma TraceSafe_identify {τ : Type} {ch : Channel} (T : TransportModel τ) (c : Ctrl) (st : τ) :
    ∀ o ∈ (identify T c st).2.2, BSafe ch o = true :=
  TraceSafe_tQuery T st _

lemma TraceSafe_resetCtrl {τ : Type} {ch : Channel} (T : TransportModel τ) (c : Ctrl) (st : τ) :
    ∀ o ∈ (resetCtrl T c st).2.2, BSafe ch o = true := by
  unfold resetCtrl
  exact TraceSafe_rbind (TraceSafe_ctrlWrite T c st (BSafe_rst ch))
    (fun a st' => TraceSafe_ctrlWrite T c st' (BSafe_chreset _ rfl))

lemma TraceSafe_set_voltage {τ : Type} {ch : Channel} (T : TransportModel τ) {c : Ctrl}
    (st : τ) (v : ℚ) (hne : c.channel ≠ ch) :
    ∀ o ∈ (set_voltage T c st v).2.2, BSafe ch o = true := by
  unfold set_voltage
  exact TraceSafe_ctrlWrite T c st (BSafe_levelv_cmd hne v)

lemma TraceSafe_set_current_limit {τ : Type} {ch : Channel} (T : TransportModel τ) {c : Ctrl}
    (st : τ) (v : ℚ) (hne : c.channel ≠ ch) :
    ∀ o ∈ (set_current_limit T c st v).2.2, BSafe ch o = true := by
  unfold set_current_limit
  exact TraceSafe_ctrlWrite T c st (BSafe_limiti_cmd hne v)

end Keithley

namespace Keithley

lemma TraceSafe_configure {τ : Type} {ch : Channel} (T : TransportModel τ) {c : Ctrl}
    (st : τ) (cfg : VoltageConfig) (hne : c.channel ≠ ch) :
    ∀ o ∈ (configure_voltage_source T c st cfg).2.2, BSafe ch o = true := by
  unfold configure_voltage_source
  apply TraceSafe_batchWrite
  intro cmd hcmd
  rcases List.mem_append.mp hcmd with h | h
  · rcases List.mem_append.mp h with h2 | h2
    · cases h2 with
      | head =>
        apply BSafe_of_not_addressed
        rcases hcc : c.channel <;> rw [hcc] at hne <;> cases ch <;>
          first
          | exact absurd rfl hne
          | decide
      | tail _ h3 => cases h3
    · rcases har : cfg.autorange <;> rw [har] at h2 <;>
      · cases h2 with
        | head =>
          apply BSafe_of_not_addressed
          rcases hcc : c.channel <;> rw [hcc] at hne <;> cases ch <;>
            first
            | exact absurd rfl hne
            | decide
        | tail _ h3 => cases h3
  · cases h with
    | head => exact BSafe_levelv_cmd hne cfg.level_v
    | tail _ h3 =>
      cases h3 with
      | head => exact BSafe_limiti_cmd hne cfg.current_limit_a
      | tail _ h4 => cases h4

end Keithley

namespace Keithley

lemma TraceSafe_quick_set {τ : Type} {ch : Channel} (T : TransportModel τ) {c : Ctrl}
    (st : τ) (l i : Option ℚ) (hne : c.channel ≠ ch) :
    ∀ o ∈ (quick_set_source T c st l i).2.2, BSafe ch o = true := by
  unfold quick_set_source
  apply TraceSafe_rbind
  · apply TraceSafe_batchWrite
    intro cmd hcmd
    rcases List.mem_append.mp hcmd with h | h
    · rcases l with _ | lq
      · cases h
      · cases h with
        | head => exact BSafe_levelv_cmd hne lq
        | tail _ h3 => cases h3
    · rcases i with _ | iq
      · cases h
      · cases h with
        | head => exact BSafe_limiti_cmd hne iq
        | tail _ h3 => cases h3
  · exact fun a st' => TraceSafe_read_compliance T c st'

lemma TraceSafe_measure {τ : Type} {ch : Channel} (T : TransportModel τ) (c : Ctrl) (st : τ) :
    ∀ o ∈ (measure_voltage T c st).2.2, BSafe ch o = true := by
  unfold measure_voltage
  apply TraceSafe_rbind (TraceSafe_tQuery T st _)
  intro a st'
  rcases hp : pyFloat? a with _ | v <;>
  · intro o ho
    cases ho

lemma TraceSafe_safe_measure {τ : Type} {ch : Channel} (T : TransportModel τ) (c : Ctrl)
    (st : τ) : ∀ o ∈ (safe_measure_voltage T c st).2.2, BSafe ch o = true := by
  have h := @TraceSafe_measure τ ch T c st
  unfold safe_measure_voltage
  rcases hm : measure_voltage T c st with ⟨e, st', tr⟩
  rw [hm] at h
  rcases e with e | v
  · exact h
  · exact h


lemma TraceSafe_rampLoop {τ : Type} {ch : Channel} (T : TransportModel τ) {c : Ctrl}
    (tv sv ds : ℚ) (lim : Option ℚ) (dir : ℚ) (hne : c.channel ≠ ch) :
    ∀ (k i : Nat) (lvl : ℚ) (comp : Bool) (st : τ),
      ∀ o ∈ (rampLoop T c tv sv ds lim dir k i lvl comp st).2.2, BSafe ch o = true := by
  intro k
  induction k with
  | zero =>
    intro i lvl comp st o ho
    cases ho
  | succ k ih =>
    intro i lvl comp st
    show ∀ o ∈ (rbind (quick_set_source T c st (some (lvl + dir * min sv |tv - lvl|))
        (if i = 0 then lim else none)) (fun c2 st =>
          rbind (safe_measure_voltage T c st) fun _ st =>
            match rampLoop T c tv sv ds lim dir k (i + 1) (lvl + dir * min sv |tv - lvl|)
                (c2 || comp) st with
            | (e, st', tr) => (e, st', (if ds ≠ 0 then [Op.sleep ds] else []) ++ tr))).2.2,
      BSafe ch o = true
    apply TraceSafe_rbind (TraceSafe_quick_set T st _ _ hne)
    intro c2 st2
    apply TraceSafe_rbind (TraceSafe_safe_measure T c st2)
    intro u st3
    have h4 := ih (i + 1) (lvl + dir * min sv |tv - lvl|) (c2 || comp) st3
    rcases hr : rampLoop T c tv sv ds lim dir k (i + 1) (lvl + dir * min sv |tv - lvl|)
        (c2 || comp) st3 with ⟨e3, st4, tr3⟩
    rw [hr] at h4
    intro o ho
    rcases List.mem_append.mp ho with h | h
    · by_cases hd : ds ≠ 0
      · rw [if_pos hd] at h
        cases h with
        | head => exact BSafe_sleep ch ds
        | tail _ h3 => cases h3
      · rw [if_neg hd] at h
        cases h
    · exact h4 o h

lemma TraceSafe_ramp_to_voltage {τ : Type} {ch : Channel} (T : TransportModel τ) {c : Ctrl}
    (st : τ) (tv sv ds : ℚ) (lim : Option ℚ) (hne : c.channel ≠ ch) :
    ∀ o ∈ (ramp_to_voltage T c st tv sv ds lim).2.2, BSafe ch o = true := by
  unfold ramp_to_voltage
  split
  · intro o ho
    cases ho
  · split
    · intro o ho
      cases ho
    · apply TraceSafe_rbind (TraceSafe_tQuery T st _)
      intro a st1
      rcases hp : floatOr0 a with e | cur
      · intro o ho
        cases ho
      · by_cases hdeg : |tv - cur| ≤ sv
        · show ∀ o ∈ (if |tv - cur| ≤ sv then
              rbind (quick_set_source T c st1 (some tv) lim) fun compliance st =>
                rbind (safe_measure_voltage T c st) fun _ st =>
                  ((.ok compliance, st, []) : Res τ Bool)
            else
              rampLoop T c tv sv ds lim (if tv - cur > 0 then 1 else -1)
                ((ratFloor (|tv - cur| / sv)).toNat +
                  (if |tv - cur| - sv * ratFloor (|tv - cur| / sv) ≠ 0 then 1 else 0))
                0 cur false st1).2.2, BSafe ch o = true
          rw [if_pos hdeg]
          apply TraceSafe_rbind (TraceSafe_quick_set T st1 _ _ hne)
          intro b st2
          apply TraceSafe_rbind (TraceSafe_safe_measure T c st2)
          intro u st3 o ho
          cases ho
        · show ∀ o ∈ (if |tv - cur| ≤ sv then
              rbind (quick_set_source T c st1 (some tv) lim) fun compliance st =>
                rbind (safe_measure_voltage T c st) fun _ st =>
                  ((.ok compliance, st, []) : Res τ Bool)
            else
              rampLoop T c tv sv ds lim (if tv - cur > 0 then 1 else -1)
                ((ratFloor (|tv - cur| / sv)).toNat +
                  (if |tv - cur| - sv * ratFloor (|tv - cur| / sv) ≠ 0 then 1 else 0))
                0 cur false st1).2.2, BSafe ch o = true
          rw [if_neg hdeg]
          exact TraceSafe_rampLoop T tv sv ds lim _ hne _ 0 cur false st1

lemma TraceSafe_ramp_to_zero {τ : Type} {ch : Channel} (T : TransportModel τ) {c : Ctrl}
    (st : τ) (sv ds tol : ℚ) (lim : Option ℚ) (hne : c.channel ≠ ch) :
    ∀ o ∈ (ramp_to_zero T c st sv ds tol lim).2.2, BSafe ch o = true := by
  unfold ramp_to_zero
  apply TraceSafe_rbind (TraceSafe_tQuery T st _)
  intro a st1
  rcases hp : floatOr0 a with e | cur
  · intro o ho
    cases ho
  · by_cases htol : |cur| ≤ tol
    · show ∀ o ∈ (if |cur| ≤ tol then ((.ok false, st1, []) : Res τ Bool)
        else
          rbind (ramp_to_voltage T c st1 0 sv ds lim) fun compliance st =>
            rbind (tQuery T st (levelQuery c)) fun response2 st =>
              match floatOr0 response2 with
              | .error e => (.error e, st, [])
              | .ok current_level2 =>
                if |current_level2| > tol then
                  rbind (quick_set_source T c st (some 0) lim) fun _ st =>
                    (.ok compliance, st, [])
                else (.ok compliance, st, [])).2.2, BSafe ch o = true
      rw [if_pos htol]
      intro o ho
      cases ho
    · show ∀ o ∈ (if |cur| ≤ tol then ((.ok false, st1, []) : Res τ Bool)
        else
          rbind (ramp_to_voltage T c st1 0 sv ds lim) fun compliance st =>
            rbind (tQuery T st (levelQuery c)) fun response2 st =>
              match floatOr0 response2 with
              | .error e => (.error e, st, [])
              | .ok current_level2 =>
                if |current_level2| > tol then
                  rbind (quick_set_source T c st (some 0) lim) fun _ st =>
                    (.ok compliance, st, [])
                else (.ok compliance, st, [])).2.2, BSafe ch o = true
      rw [if_neg htol]
      apply TraceSafe_rbind (TraceSafe_ramp_to_voltage T st1 0 sv ds lim hne)
      intro comp st2
      apply TraceSafe_rbind (TraceSafe_tQuery T st2 _)
      intro a2 st3
      rcases hp2 : floatOr0 a2 with e2 | cur2
      · intro o ho
        cases ho
      · by_cases htol2 : |cur2| > tol
        · show ∀ o ∈ (if |cur2| > tol then
              rbind (quick_set_source T c st3 (some 0) lim) fun _ st =>
                ((.ok comp, st, []) : Res τ Bool)
            else (.ok comp, st3, [])).2.2, BSafe ch o = true
          rw [if_pos htol2]
          apply TraceSafe_rbind (TraceSafe_quick_set T st3 _ _ hne)
          intro u st4 o ho
          cases ho
        · show ∀ o ∈ (if |cur2| > tol then
              rbind (quick_set_source T c st3 (some 0) lim) fun _ st =>
                ((.ok comp, st, []) : Res τ Bool)
            else (.ok comp, st3, [])).2.2, BSafe ch o = true
          rw [if_neg htol2]
          intro o ho
          cases ho

end Keithley

namespace Keithley

lemma TraceSafe_enable_output {τ : Type} {ch : Channel} (T : TransportModel τ) {c : Ctrl}
    (st : τ) (b : Bool) (hne : c.channel ≠ ch) :
    ∀ o ∈ (enable_output T c st b).2.2, BSafe ch o = true := by
  unfold enable_output
  apply TraceSafe_ctrlWrite
  apply BSafe_of_not_addressed
  rcases hcc : c.channel <;> rw [hcc] at hne <;> cases ch <;> cases b <;>
    first
    | exact absurd rfl hne
    | decide

lemma TraceSafe_drainLoop {τ : Type} {ch : Channel} (T : TransportModel τ) :
    ∀ (n : Nat) (st : τ) (acc : List ErrorEntry),
      ∀ o ∈ (drainLoop T n st acc).2.2, BSafe ch o = true := by
  intro n
  induction n with
  | zero =>
    intro st acc o ho
    cases ho
  | succ n ih =>
    intro st acc
    show ∀ o ∈ (rbind (tQuery T st drainScript) fun response st =>
        match parseEntry response with
        | some e => drainLoop T n st (acc ++ [e])
        | none => drainLoop T n st acc).2.2, BSafe ch o = true
    apply TraceSafe_rbind (TraceSafe_tQuery T st _)
    intro a st1
    rcases hp : parseEntry a with _ | e
    · exact ih st1 acc
    · exact ih st1 (acc ++ [e])

lemma TraceSafe_drain {τ : Type} {ch : Channel} (T : TransportModel τ) (c : Ctrl) (st : τ) :
    ∀ o ∈ (drain_error_queue T c st).2.2, BSafe ch o = true := by
  have hq := @TraceSafe_tQuery τ ch T st "print(errorqueue.count)".data
  unfold drain_error_queue
  rcases ht : tQuery T st "print(errorqueue.count)".data with ⟨e, st1, tr1⟩
  rw [ht] at hq
  rcases e with e | resp
  · exact hq
  · show ∀ o ∈ (let s1 := if resp.isEmpty then "0".data else resp
      let s2 := pyStrip s1
      let s3 := if s2.isEmpty then "0".data else s2
      let count : Int := (parseInt? s3).getD 0
      if count ≤ 0 then ((.ok [], st1, tr1) : Res τ (List ErrorEntry))
      else
        match drainLoop T count.toNat st1 [] with
        | (e, st'', tr') => (e, st'', tr1 ++ tr')).2.2, BSafe ch o = true
    by_cases hcnt : ((parseInt? (if (pyStrip (if resp.isEmpty then "0".data else resp)).isEmpty
        then "0".data
        else pyStrip (if resp.isEmpty then "0".data else resp))).getD 0 : Int) ≤ 0
    · show ∀ o ∈ (if ((parseInt? (if (pyStrip (if resp.isEmpty then "0".data else resp)).isEmpty
          then "0".data
          else pyStrip (if resp.isEmpty then "0".data else resp))).getD 0 : Int) ≤ 0
        then ((.ok [], st1, tr1) : Res τ (List ErrorEntry))
        else
          match drainLoop T ((parseInt? (if (pyStrip (if resp.isEmpty then "0".data
              else resp)).isEmpty
            then "0".data
            else pyStrip (if resp.isEmpty then "0".data else resp))).getD 0 : Int).toNat st1 [] with
          | (e, st'', tr') => (e, st'', tr1 ++ tr')).2.2, BSafe ch o = true
      rw [if_pos hcnt]
      exact hq
    · show ∀ o ∈ (if ((parseInt? (if (pyStrip (if resp.isEmpty then "0".data else resp)).isEmpty
          then "0".data
          else pyStrip (if resp.isEmpty then "0".data else resp))).getD 0 : Int) ≤ 0
        then ((.ok [], st1, tr1) : Res τ (List ErrorEntry))
        else
          match drainLoop T ((parseInt? (if (pyStrip (if resp.isEmpty then "0".data
              else resp)).isEmpty
            then "0".data
            else pyStrip (if resp.isEmpty then "0".data else resp))).getD 0 : Int).toNat st1 [] with
          | (e, st'', tr') => (e, st'', tr1 ++ tr')).2.2, BSafe ch o = true
      rw [if_neg hcnt]
      have hdl := @TraceSafe_drainLoop τ ch T
        (((parseInt? (if (pyStrip (if resp.isEmpty then "0".data else resp)).isEmpty
          then "0".data
          else pyStrip (if resp.isEmpty then "0".data else resp))).getD 0 : Int)).toNat st1 []
      rcases hd : drainLoop T (((parseInt? (if (pyStrip (if resp.isEmpty then "0".data
          else resp)).isEmpty
        then "0".data
        else pyStrip (if resp.isEmpty then "0".data else resp))).getD 0 : Int)).toNat st1 []
        with ⟨e2, st2, tr2⟩
      rw [hd] at hdl
      intro o ho
      rcases List.mem_append.mp ho with h | h
      · exact hq o h
      · exact hdl o h

lemma TraceSafe_set_beeper {τ : Type} {ch : Channel} (T : TransportModel τ) (c : Ctrl)
    (st : τ) (b : Bool) :
    ∀ o ∈ (set_beeper_enabled T c st b).2.2, BSafe ch o = true := by
  unfold set_beeper_enabled
  apply TraceSafe_ctrlWrite
  apply BSafe_of_not_addressed
  cases ch <;> cases b <;> decide

lemma TraceSafe_beep {τ : Type} {ch : Channel} (T : TransportModel τ) (c : Ctrl) (st : τ)
    (d : ℚ) (f : Int) : ∀ o ∈ (beep T c st d f).2.2, BSafe ch o = true := by
  unfold beep
  apply TraceSafe_ctrlWrite
  apply BSafe_of_not_addressed
  cases ch <;>
    exact pyStarts_false_append _
      (len_le_append_left _ (len_le_append_left _ (len_le_append_left _ (by decide))))
      (pyStarts_false_append _ (len_le_append_left _ (len_le_append_left _ (by decide)))
        (pyStarts_false_append _ (len_le_append_left _ (by decide))
          (pyStarts_false_append _ (by decide) (by decide))))

lemma TraceSafe_display {τ : Type} {ch : Channel} (T : TransportModel τ) {c : Ctrl} (st : τ)
    (hne : c.channel ≠ ch) :
    ∀ o ∈ (configure_display_for_voltage T c st).2.2, BSafe ch o = true := by
  unfold configure_display_for_voltage
  apply TraceSafe_batchWrite
  intro cmd hcmd
  cases hcmd with
  | head =>
    apply BSafe_of_not_addressed
    rcases hcc : c.channel <;> cases ch <;>
      exact pyStarts_false_append _ (by decide) (by decide)
  | tail _ h2 =>
    cases h2 with
    | head =>
      apply BSafe_of_not_addressed
      rcases hcc : c.channel <;> rw [hcc] at hne <;> cases ch <;>
        first
        | exact absurd rfl hne
        | decide
    | tail _ h3 => cases h3

end Keithley

namespace Keithley

lemma goodTrace_append_of_BSafe (ch : Channel) : ∀ (tr1 tr2 : List Op),
    (∀ o ∈ tr1, BSafe ch o = true) → goodTrace ch tr2 = true →
    goodTrace ch (tr1 ++ tr2) = true := by
  intro tr1
  induction tr1 with
  | nil =>
    intro tr2 _ h2
    exact h2
  | cons o rest ih =>
    intro tr2 h1 h2
    have hb := h1 o (List.mem_cons_self o rest)
    show (if resetOf ch o then true
      else if addressedTo ch o then false
      else goodTrace ch (rest ++ tr2)) = true
    rcases hro : resetOf ch o
    · have haddr : addressedTo ch o = false := by
        unfold BSafe at hb
        rw [hro] at hb
        simpa using hb
      rw [haddr]
      show goodTrace ch (rest ++ tr2) = true
      exact ih tr2 (fun x hx => h1 x (List.mem_cons_of_mem o hx)) h2
    · rfl

lemma runOps_goodTrace {τ : Type} (T : TransportModel τ) (ch : Channel) :
    ∀ (ops : List CtrlOp) (c : Ctrl) (st : τ),
      c.connected = true → c.channel ≠ ch →
      goodTrace ch ((runOps T c st ops).2.2) = true := by
  intro ops
  induction ops with
  | nil =>
    intro c st _ _
    rfl
  | cons op rest ih =>
    intro c st hconn hne
    have hsplit : runOps T c st (op :: rest) =
        (match runOp T c st op with
         | (c1, st1, tr1) =>
           match runOps T c1 st1 rest with
           | (c2, st2, tr2) => (c2, st2, tr1 ++ tr2)) := rfl
    rw [hsplit]
    rcases hop : runOp T c st op with ⟨c1, st1, tr1⟩
    show goodTrace ch ((match runOps T c1 st1 rest with
      | (c2, st2, tr2) => (c2, st2, tr1 ++ tr2)).2.2) = true
    rcases hrest : runOps T c1 st1 rest with ⟨c2, st2, tr2⟩
    show goodTrace ch (tr1 ++ tr2) = true
    have hg2of : c = c1 → goodTrace ch tr2 = true := by
      intro hc1
      have h := ih c1 st1 (by rw [← hc1]; exact hconn) (by rw [← hc1]; exact hne)
      rw [hrest] at h
      exact h
    cases op with
    | identifyOp =>
      refine goodTrace_append_of_BSafe ch tr1 tr2 ?_ (hg2of (congrArg Prod.fst hop))
      have htr1 : (identify T c st).2.2 = tr1 := congrArg (fun p => p.2.2) hop
      rw [← htr1]
      exact TraceSafe_identify T c st
    | resetOp =>
      refine goodTrace_append_of_BSafe ch tr1 tr2 ?_ (hg2of (congrArg Prod.fst hop))
      have htr1 : (resetCtrl T c st).2.2 = tr1 := congrArg (fun p => p.2.2) hop
      rw [← htr1]
      exact TraceSafe_resetCtrl T c st
    | configureOp cfg =>
      refine goodTrace_append_of_BSafe ch tr1 tr2 ?_ (hg2of (congrArg Prod.fst hop))
      have htr1 : (configure_voltage_source T c st cfg).2.2 = tr1 := congrArg (fun p => p.2.2) hop
      rw [← htr1]
      exact TraceSafe_configure T st cfg hne
    | setVoltageOp v =>
      refine goodTrace_append_of_BSafe ch tr1 tr2 ?_ (hg2of (congrArg Prod.fst hop))
      have htr1 : (set_voltage T c st v).2.2 = tr1 := congrArg (fun p => p.2.2) hop
      rw [← htr1]
      exact TraceSafe_set_voltage T st v hne
    | setLimitOp v =>
      refine goodTrace_append_of_BSafe ch tr1 tr2 ?_ (hg2of (congrArg Prod.fst hop))
      have htr1 : (set_current_limit T c st v).2.2 = tr1 := congrArg (fun p => p.2.2) hop
      rw [← htr1]
      exact TraceSafe_set_current_limit T st v hne
    | readComplianceOp =>
      refine goodTrace_append_of_BSafe ch tr1 tr2 ?_ (hg2of (congrArg Prod.fst hop))
      have htr1 : (read_compliance T c st).2.2 = tr1 := congrArg (fun p => p.2.2) hop
      rw [← htr1]
      exact TraceSafe_read_compliance T c st
    | quickSetOp l i =>
      refine goodTrace_append_of_BSafe ch tr1 tr2 ?_ (hg2of (congrArg Prod.fst hop))
      have htr1 : (quick_set_source T c st l i).2.2 = tr1 := congrArg (fun p => p.2.2) hop
      rw [← htr1]
      exact TraceSafe_quick_set T st l i hne
    | measureOp =>
      refine goodTrace_append_of_BSafe ch tr1 tr2 ?_ (hg2of (congrArg Prod.fst hop))
      have htr1 : (measure_voltage T c st).2.2 = tr1 := congrArg (fun p => p.2.2) hop
      rw [← htr1]
      exact TraceSafe_measure T c st
    | rampOp t s d lim =>
      refine goodTrace_append_of_BSafe ch tr1 tr2 ?_ (hg2of (congrArg Prod.fst hop))
      have htr1 : (ramp_to_voltage T c st t s d lim).2.2 = tr1 := congrArg (fun p => p.2.2) hop
      rw [← htr1]
      exact TraceSafe_ramp_to_voltage T st t s d lim hne
    | rampZeroOp s d tol lim =>
      refine goodTrace_append_of_BSafe ch tr1 tr2 ?_ (hg2of (congrArg Prod.fst hop))
      have htr1 : (ramp_to_zero T c st s d tol lim).2.2 = tr1 := congrArg (fun p => p.2.2) hop
      rw [← htr1]
      exact TraceSafe_ramp_to_zero T st s d tol lim hne
    | enableOutputOp b =>
      refine goodTrace_append_of_BSafe ch tr1 tr2 ?_ (hg2of (congrArg Prod.fst hop))
      have htr1 : (enable_output T c st b).2.2 = tr1 := congrArg (fun p => p.2.2) hop
      rw [← htr1]
      exact TraceSafe_enable_output T st b hne
    | drainOp =>
      refine goodTrace_append_of_BSafe ch tr1 tr2 ?_ (hg2of (congrArg Prod.fst hop))
      have htr1 : (drain_error_queue T c st).2.2 = tr1 := congrArg (fun p => p.2.2) hop
      rw [← htr1]
      exact TraceSafe_drain T c st
    | beeperOp b =>
      refine goodTrace_append_of_BSafe ch tr1 tr2 ?_ (hg2of (congrArg Prod.fst hop))
      have htr1 : (set_beeper_enabled T c st b).2.2 = tr1 := congrArg (fun p => p.2.2) hop
      rw [← htr1]
      exact TraceSafe_set_beeper T c st b
    | beepOp d f =>
      refine goodTrace_append_of_BSafe ch tr1 tr2 ?_ (hg2of (congrArg Prod.fst hop))
      have htr1 : (beep T c st d f).2.2 = tr1 := congrArg (fun p => p.2.2) hop
      rw [← htr1]
      exact TraceSafe_beep T c st d f
    | displayOp =>
      refine goodTrace_append_of_BSafe ch tr1 tr2 ?_ (hg2of (congrArg Prod.fst hop))
      have htr1 : (configure_display_for_voltage T c st).2.2 = tr1 := congrArg (fun p => p.2.2) hop
      rw [← htr1]
      exact TraceSafe_display T st hne
    | selectOp chn =>
      by_cases hsame : chn = c.channel
      · have hsel : select_channel T c st chn = (.ok (), c, st, []) := by
          show (if chn = c.channel then
              ((.ok (), c, st, []) : Except Err Unit × Ctrl × τ × List Op)
            else
              match ctrlWrite T { c with channel := chn } st (chn.alias ++ ".reset()".data) with
              | (e, st2, tr) => (e, { c with channel := chn }, st2, tr)) = _
          rw [if_pos hsame]
        have hc1a : (select_channel T c st chn).2.1 = c1 := congrArg Prod.fst hop
        rw [hsel] at hc1a
        have hc1 : c = c1 := hc1a
        have htr1a : (select_channel T c st chn).2.2.2 = tr1 := congrArg (fun p => p.2.2) hop
        rw [hsel] at htr1a
        have htr1 : ([] : List Op) = tr1 := htr1a
        rw [← htr1]
        show goodTrace ch tr2 = true
        exact hg2of hc1
      · have hct0 : ∀ st0 : τ, (ctrlWrite T { c with channel := chn } st0
            (chn.alias ++ ".reset()".data)).2.2 = [.write (chn.alias ++ ".reset()".data)] := by
          intro st0
          unfold ctrlWrite
          rw [show ({ c with channel := chn } : Ctrl).connected = c.connected from rfl, hconn]
          rcases hw : T.write st0 (chn.alias ++ ".reset()".data) with e2 | st2 <;> rfl
        rcases hcw : ctrlWrite T { c with channel := chn } st (chn.alias ++ ".reset()".data)
          with ⟨e, stw, trw⟩
        have hct := hct0 st
        rw [hcw] at hct
        have hsel : select_channel T c st chn =
            (e, { c with channel := chn }, stw, trw) := by
          show (if chn = c.channel then
              ((.ok (), c, st, []) : Except Err Unit × Ctrl × τ × List Op)
            else
              match ctrlWrite T { c with channel := chn } st (chn.alias ++ ".reset()".data) with
              | (e, st2, tr) => (e, { c with channel := chn }, st2, tr)) = _
          rw [if_neg hsame, hcw]
        have hc1a : (select_channel T c st chn).2.1 = c1 := congrArg Prod.fst hop
        rw [hsel] at hc1a
        have hc1 : ({ c with channel := chn } : Ctrl) = c1 := hc1a
        have htr1a : (select_channel T c st chn).2.2.2 = tr1 := congrArg (fun p => p.2.2) hop
        rw [hsel] at htr1a
        have htr1 : trw = tr1 := htr1a
        have hct2 : trw = [.write (chn.alias ++ ".reset()".data)] := hct
        rw [← htr1, hct2]
        by_cases hch : chn = ch
        · rw [hch]
          have hres : resetOf ch (.write (ch.alias ++ ".reset()".data)) = true := by
            cases ch <;> decide
          show (if resetOf ch (.write (ch.alias ++ ".reset()".data)) then true
            else if addressedTo ch (.write (ch.alias ++ ".reset()".data)) then false
            else goodTrace ch tr2) = true
          rw [hres]
          rfl
        · refine goodTrace_append_of_BSafe ch _ tr2 ?_ ?_
          · intro o ho
            cases ho with
            | head => exact BSafe_chreset _ rfl
            | tail _ h3 => cases h3
          · have h := ih c1 st1 (by rw [← hc1]; exact hconn)
              (by rw [← hc1]; exact hch)
            rw [hrest] at h
            exact h

end Keithley

namespace Keithley

/-- **C4 counterexample**: from a freshly constructed, connected controller
(default channel A) over the simulated transport, a single `set_voltage`
call issues a command addressed to channel A with no prior reset of A: the
very first trace element is addressed to A and is not a reset, so the
claimed invariant fails for the initial channel. -/
theorem C4_counterexample :
    ((runOps simTransport { channel := Channel.A, connected := true }
        { SimState.init with is_open := true } [CtrlOp.setVoltageOp 1]).2.2 =
      [.write "smua.source.levelv = 1/1".data]) ∧
    addressedTo Channel.A (.write "smua.source.levelv = 1/1".data) = true ∧
    resetOf Channel.A (.write "smua.source.levelv = 1/1".data) = false ∧
    goodTrace Channel.A
      ((runOps simTransport { channel := Channel.A, connected := true }
        { SimState.init with is_open := true } [CtrlOp.setVoltageOp 1]).2.2) = false := by
  refine ⟨?_, by decide, by decide, ?_⟩
  · with_unfolding_all rfl
  · with_unfolding_all rfl

/-- **C4 (amended)**: over any transport, in every sequence of controller
operations starting from a freshly constructed, connected controller with
default channel `ch0`, no command addressed to a channel other than `ch0`
is ever issued before that channel has received a reset (the global `*RST`
or the reset that `select_channel` issues when switching to it); the
original claim holds for every channel except the initial one, which is
never auto-reset. -/
theorem C4_reset_before_use {τ : Type} (T : TransportModel τ) (ops : List CtrlOp)
    (ch0 ch : Channel) (st : τ) (hne : ch ≠ ch0) :
    goodTrace ch ((runOps T { channel := ch0, connected := true } st ops).2.2) = true :=
  runOps_goodTrace T ch ops { channel := ch0, connected := true } st rfl
    (fun h => hne (Eq.symm h))

theorem C4_reset_before_use_witness :
    Channel.B ≠ Channel.A ∧
    goodTrace Channel.B ((runOps simTransport { channel := Channel.A, connected := true }
      { SimState.init with is_open := true }
      [CtrlOp.setVoltageOp 1, CtrlOp.selectOp Channel.B, CtrlOp.setVoltageOp 2,
       CtrlOp.configureOp ⟨mkRat 3 2, mkRat 1 500, true⟩]).2.2) = true :=
  ⟨by decide,
    C4_reset_before_use simTransport
      [CtrlOp.setVoltageOp 1, CtrlOp.selectOp Channel.B, CtrlOp.setVoltageOp 2,
       CtrlOp.configureOp ⟨mkRat 3 2, mkRat 1 500, true⟩]
      Channel.A Channel.B { SimState.init with is_open := true } (by decide)⟩

end Keithley

namespace Keithley

theorem C5_identify_no_guard_witness :
    identify simTransport { channel := Channel.A, connected := true }
        { SimState.init with is_open := true } =
      (.ok SimState.init.identity, { SimState.init with is_open := true },
        [.query "*IDN?".data]) ∧
    identify simTransport { channel := Channel.A, connected := true } SimState.init =
      (.error (.runtime "Transport is not open".data), SimState.init,
        [.query "*IDN?".data]) ∧
    ctrlWrite simTransport { channel := Channel.A, connected := false } SimState.init
        "*RST".data =
      (.error (.runtime "Instrument is not connected".data), SimState.init, []) :=
  ⟨C5_identify_no_guard.1 { channel := Channel.A, connected := true }
      { SimState.init with is_open := true } rfl,
    C5_identify_no_guard.2.1 { channel := Channel.A, connected := true } SimState.init rfl,
    C5_identify_no_guard.2.2 { channel := Channel.A, connected := false } SimState.init
      "*RST".data rfl⟩

end Keithley
